import Mathlib

/-!
Verification of the EventFlow platform-adapter core.

JavaScript strings are modelled as their sequence of UTF-16 code units,
`List Nat` (each element `< 2 ^ 16`); for the ASCII-only data handled by the
token cipher and the iCal generator the code unit of a character coincides
with its ASCII code.  Byte buffers (`Buffer`) are also `List Nat` with
elements `< 256`.  Fallible operations return `Except`/`Option`.
-/

set_option maxRecDepth 10000

/-! ## Base64 (Node `Buffer` base64 codec, as used by `encryption.ts`) -/

/-- Code points of the base64 alphabet `A-Z a-z 0-9 + /`. -/
def b64Alphabet : List Nat :=
  (List.range 26).map (· + 65) ++ (List.range 26).map (· + 97) ++
    (List.range 10).map (· + 48) ++ [43, 47]

/-- Character (code point) for a sextet value `< 64`. -/
def sextetChar (v : Nat) : Nat :=
  b64Alphabet.getD v 61

/-- Sextet value of an alphabet character. -/
def charSextet (c : Nat) : Nat :=
  b64Alphabet.indexOf c

/-- Whether a code point belongs to the base64 alphabet (padding `=` excluded). -/
def isB64Code (c : Nat) : Bool :=
  b64Alphabet.contains c

/-- Base64 encoding of a byte list, three bytes to four characters, with
`=` (code 61) padding. -/
def b64EncodeCore : List Nat → List Nat
  | x :: y :: z :: rest =>
      sextetChar (x / 4) :: sextetChar (x % 4 * 16 + y / 16) ::
        sextetChar (y % 16 * 4 + z / 64) :: sextetChar (z % 64) :: b64EncodeCore rest
  | [x, y] => [sextetChar (x / 4), sextetChar (x % 4 * 16 + y / 16), sextetChar (y % 16 * 4), 61]
  | [x] => [sextetChar (x / 4), sextetChar (x % 4 * 16), 61, 61]
  | [] => []

/-- Base64 encoding (string as code-point list). -/
def b64Encode (b : List Nat) : List Nat :=
  b64EncodeCore b

/-- Decoding of a run of alphabet characters, four sextets to three bytes;
a trailing group of two or three sextets yields one or two bytes. -/
def b64DecodeQuads : List Nat → List Nat
  | a :: b :: c :: d :: rest =>
      (charSextet a * 4 + charSextet b / 16) ::
        (charSextet b % 16 * 16 + charSextet c / 4) ::
          (charSextet c % 4 * 64 + charSextet d) :: b64DecodeQuads rest
  | [a, b, c] => [charSextet a * 4 + charSextet b / 16, charSextet b % 16 * 16 + charSextet c / 4]
  | [a, b] => [charSextet a * 4 + charSextet b / 16]
  | _ => []

/-- Base64 decoding, lenient as Node `Buffer.from(_, 'base64')`: characters
outside the alphabet (including the `=` padding) are ignored. -/
def b64Decode (s : List Nat) : List Nat :=
  b64DecodeQuads (s.filter isB64Code)

theorem charSextet_sextetChar : ∀ v : Fin 64, charSextet (sextetChar v.val) = v.val := by
  decide

theorem isB64Code_sextetChar : ∀ v : Fin 64, isB64Code (sextetChar v.val) = true := by
  decide

theorem isB64Code_pad : isB64Code 61 = false := by decide

theorem sextetChar_ne_colon (v : Nat) : sextetChar v ≠ 58 := by
  unfold sextetChar
  by_cases h : v < b64Alphabet.length
  · rw [List.getD_eq_getElem b64Alphabet 61 h]
    have hmem := List.getElem_mem h
    intro hc
    rw [hc] at hmem
    revert hmem
    decide
  · rw [List.getD_eq_default b64Alphabet 61 (by omega)]
    omega

theorem b64EncodeCore_mem (b : List Nat) :
    ∀ c ∈ b64EncodeCore b, (∃ v : Nat, c = sextetChar v) ∨ c = 61 := by
  induction b using b64EncodeCore.induct with
  | case1 x y z rest ih =>
      intro c hc
      simp only [b64EncodeCore, List.mem_cons] at hc
      rcases hc with h | h | h | h | h
      · exact Or.inl ⟨x / 4, h⟩
      · exact Or.inl ⟨x % 4 * 16 + y / 16, h⟩
      · exact Or.inl ⟨y % 16 * 4 + z / 64, h⟩
      · exact Or.inl ⟨z % 64, h⟩
      · exact ih c h
  | case2 x y =>
      intro c hc
      simp only [b64EncodeCore, List.mem_cons, List.not_mem_nil, or_false] at hc
      rcases hc with h | h | h | h
      · exact Or.inl ⟨x / 4, h⟩
      · exact Or.inl ⟨x % 4 * 16 + y / 16, h⟩
      · exact Or.inl ⟨y % 16 * 4, h⟩
      · exact Or.inr h
  | case3 x =>
      intro c hc
      simp only [b64EncodeCore, List.mem_cons, List.not_mem_nil, or_false] at hc
      rcases hc with h | h | h | h
      · exact Or.inl ⟨x / 4, h⟩
      · exact Or.inl ⟨x % 4 * 16, h⟩
      · exact Or.inr h
      · exact Or.inr h
  | case4 =>
      intro c hc
      simp [b64EncodeCore] at hc

theorem colon_not_mem_b64Encode (b : List Nat) : 58 ∉ b64Encode b := by
  intro h
  rcases b64EncodeCore_mem b 58 h with ⟨v, hv⟩ | h61
  · exact sextetChar_ne_colon v hv.symm
  · omega

theorem b64Decode_b64Encode (b : List Nat) (hb : ∀ x ∈ b, x < 256) :
    b64Decode (b64Encode b) = b := by
  unfold b64Encode
  unfold b64Decode
  induction b using b64EncodeCore.induct with
  | case1 x y z rest ih =>
      have hx : x < 256 := hb x (by simp)
      have hy : y < 256 := hb y (by simp)
      have hz : z < 256 := hb z (by simp)
      have h1 : charSextet (sextetChar (x / 4)) = x / 4 :=
        charSextet_sextetChar ⟨x / 4, by omega⟩
      have h2 : charSextet (sextetChar (x % 4 * 16 + y / 16)) = x % 4 * 16 + y / 16 :=
        charSextet_sextetChar ⟨x % 4 * 16 + y / 16, by omega⟩
      have h3 : charSextet (sextetChar (y % 16 * 4 + z / 64)) = y % 16 * 4 + z / 64 :=
        charSextet_sextetChar ⟨y % 16 * 4 + z / 64, by omega⟩
      have h4 : charSextet (sextetChar (z % 64)) = z % 64 :=
        charSextet_sextetChar ⟨z % 64, by omega⟩
      have i1 : isB64Code (sextetChar (x / 4)) = true :=
        isB64Code_sextetChar ⟨x / 4, by omega⟩
      have i2 : isB64Code (sextetChar (x % 4 * 16 + y / 16)) = true :=
        isB64Code_sextetChar ⟨x % 4 * 16 + y / 16, by omega⟩
      have i3 : isB64Code (sextetChar (y % 16 * 4 + z / 64)) = true :=
        isB64Code_sextetChar ⟨y % 16 * 4 + z / 64, by omega⟩
      have i4 : isB64Code (sextetChar (z % 64)) = true :=
        isB64Code_sextetChar ⟨z % 64, by omega⟩
      simp only [b64EncodeCore, List.filter_cons, i1, i2, i3, i4, if_true]
      simp only [List.filter_cons] at ih
      rw [show ∀ t : List Nat, b64DecodeQuads
            (sextetChar (x / 4) :: sextetChar (x % 4 * 16 + y / 16) ::
              sextetChar (y % 16 * 4 + z / 64) :: sextetChar (z % 64) :: t) =
          (charSextet (sextetChar (x / 4)) * 4 +
              charSextet (sextetChar (x % 4 * 16 + y / 16)) / 16) ::
            (charSextet (sextetChar (x % 4 * 16 + y / 16)) % 16 * 16 +
              charSextet (sextetChar (y % 16 * 4 + z / 64)) / 4) ::
              (charSextet (sextetChar (y % 16 * 4 + z / 64)) % 4 * 64 +
                charSextet (sextetChar (z % 64))) :: b64DecodeQuads t
          from fun t => rfl]
      rw [ih (fun a ha => hb a (by simp [ha]))]
      simp only [h1, h2, h3, h4]
      congr 1
      · omega
      congr 1
      · omega
      congr 1
      · omega
  | case2 x y =>
      have hx : x < 256 := hb x (by simp)
      have hy : y < 256 := hb y (by simp)
      have h1 : charSextet (sextetChar (x / 4)) = x / 4 :=
        charSextet_sextetChar ⟨x / 4, by omega⟩
      have h2 : charSextet (sextetChar (x % 4 * 16 + y / 16)) = x % 4 * 16 + y / 16 :=
        charSextet_sextetChar ⟨x % 4 * 16 + y / 16, by omega⟩
      have h3 : charSextet (sextetChar (y % 16 * 4)) = y % 16 * 4 :=
        charSextet_sextetChar ⟨y % 16 * 4, by omega⟩
      have i1 : isB64Code (sextetChar (x / 4)) = true :=
        isB64Code_sextetChar ⟨x / 4, by omega⟩
      have i2 : isB64Code (sextetChar (x % 4 * 16 + y / 16)) = true :=
        isB64Code_sextetChar ⟨x % 4 * 16 + y / 16, by omega⟩
      have i3 : isB64Code (sextetChar (y % 16 * 4)) = true :=
        isB64Code_sextetChar ⟨y % 16 * 4, by omega⟩
      simp only [b64EncodeCore, List.filter_cons, i1, i2, i3, isB64Code_pad, if_true]
      simp only [List.filter_nil, b64DecodeQuads, h1, h2, h3]
      simp only [List.cons.injEq, and_true]
      exact ⟨by omega, by omega⟩
  | case3 x =>
      have hx : x < 256 := hb x (by simp)
      have h1 : charSextet (sextetChar (x / 4)) = x / 4 :=
        charSextet_sextetChar ⟨x / 4, by omega⟩
      have h2 : charSextet (sextetChar (x % 4 * 16)) = x % 4 * 16 :=
        charSextet_sextetChar ⟨x % 4 * 16, by omega⟩
      have i1 : isB64Code (sextetChar (x / 4)) = true :=
        isB64Code_sextetChar ⟨x / 4, by omega⟩
      have i2 : isB64Code (sextetChar (x % 4 * 16)) = true :=
        isB64Code_sextetChar ⟨x % 4 * 16, by omega⟩
      simp only [b64EncodeCore, List.filter_cons, i1, i2, isB64Code_pad, if_true]
      simp only [List.filter_nil, b64DecodeQuads, h1, h2]
      simp only [List.cons.injEq, and_true]
      omega
  | case4 =>
      simp [b64EncodeCore, b64DecodeQuads]

/-! ## String split on the `:` delimiter (JS `String.prototype.split(':')`) -/

/-- Split a code-unit list at every colon (code 58), JS `split(':')` semantics:
`"a:b:c"` gives `["a","b","c"]`, a string without colons gives one segment. -/
def splitOnColon : List Nat → List (List Nat)
  | [] => [[]]
  | c :: rest =>
      if c = 58 then [] :: splitOnColon rest
      else
        match splitOnColon rest with
        | h :: t => (c :: h) :: t
        | [] => [[c]]

theorem splitOnColon_ne_nil (s : List Nat) : splitOnColon s ≠ [] := by
  induction s with
  | nil => simp [splitOnColon]
  | cons c rest ih =>
      unfold splitOnColon
      by_cases hc : c = 58
      · simp [hc]
      · simp only [hc, if_false]
        cases h : splitOnColon rest with
        | nil => simp
        | cons a t => simp

theorem splitOnColon_no_colon (s : List Nat) (h : 58 ∉ s) : splitOnColon s = [s] := by
  induction s with
  | nil => rfl
  | cons c rest ih =>
      have hc : c ≠ 58 := fun hc => h (by simp [hc])
      have hr : 58 ∉ rest := fun hr => h (by simp [hr])
      unfold splitOnColon
      simp only [hc, if_false, ih hr]

theorem splitOnColon_append (a s : List Nat) (ha : 58 ∉ a) :
    splitOnColon (a ++ 58 :: s) = a :: splitOnColon s := by
  induction a with
  | nil => simp [splitOnColon]
  | cons c rest ih =>
      have hc : c ≠ 58 := fun hc => ha (by simp [hc])
      have hr : 58 ∉ rest := fun hr => ha (by simp [hr])
      simp only [List.cons_append]
      unfold splitOnColon
      simp only [hc, if_false, ih hr]
      rw [← splitOnColon.eq_def]

/-! ## Token cipher (`encryption.ts`)

Modelled from the spec: the AES-256-GCM primitive provided by Node
`crypto.createCipheriv`/`createDecipheriv` is external to this repository.
Per spec §4.1 it is an authenticated symmetric cipher (AEAD): the ciphertext
has the length of the plaintext (GCM is a stream mode, so `cipher.final()`
contributes no bytes), and a 16-byte authentication tag over key, nonce and
ciphertext detects any modification.  It is modelled below by a keystream
XOR plus a positional checksum tag with exactly those interface properties;
`encrypt`, `decrypt` and `isEncrypted` themselves follow the source. -/

/-- Keystream byte `i` of the modelled AEAD, derived from key and nonce. -/
def keystreamByte (key iv : List Nat) (i : Nat) : Nat :=
  (key.getD (i % 32) 0 * 7 + iv.getD (i % 12) 0 * 3 + i) % 256

/-- Ciphertext bytes of the modelled AEAD: plaintext XOR keystream. -/
def aeadEncryptBytes (key iv m : List Nat) : List Nat :=
  (List.range m.length).map fun i => Nat.xor (m.getD i 0) (keystreamByte key iv i)

/-- Plaintext bytes of the modelled AEAD: the same XOR (CTR-style involution). -/
def aeadDecryptBytes (key iv c : List Nat) : List Nat :=
  (List.range c.length).map fun i => Nat.xor (c.getD i 0) (keystreamByte key iv i)

/-- Authentication tag (16 bytes) of the modelled AEAD over key, nonce and
ciphertext. -/
def authTag (key iv c : List Nat) : List Nat :=
  (List.range 16).map fun j => (key.sum + iv.sum * 5 + c.sum + c.length + j) % 256

/-- Nonce length used by the source (`IV_LENGTH = 12`). -/
def IV_LENGTH : Nat := 12

/-- Tag length used by the source (`TAG_LENGTH = 16`). -/
def TAG_LENGTH : Nat := 16

/-- Encrypt a value (`encrypt` in `encryption.ts`): the result is
`base64(iv) : base64(ciphertext) : base64(tag)` as one code-unit string.
The random nonce `iv` drawn by `crypto.randomBytes(12)` is an explicit
argument. -/
def encrypt (key iv m : List Nat) : List Nat :=
  let c := aeadEncryptBytes key iv m
  let tag := authTag key iv c
  b64Encode iv ++ 58 :: (b64Encode c ++ 58 :: b64Encode tag)

/-- Decrypt a value (`decrypt` in `encryption.ts`): split on `:`, require
exactly three segments, a 12-byte nonce and a 16-byte tag, then authenticated
decryption; every failure is an error, mirroring the thrown exceptions. -/
def decrypt (key : List Nat) (s : List Nat) : Except String (List Nat) :=
  match splitOnColon s with
  | [ivB64, ctB64, tagB64] =>
      let iv := b64Decode ivB64
      let tag := b64Decode tagB64
      if iv.length ≠ IV_LENGTH then .error "Invalid IV length"
      else if tag.length ≠ TAG_LENGTH then .error "Invalid auth tag length"
      else
        let c := b64Decode ctB64
        if authTag key iv c ≠ tag then
          .error "Unsupported state or unable to authenticate data"
        else .ok (aeadDecryptBytes key iv c)
  | _ => .error "Invalid encrypted format"

/-- Structural probe (`isEncrypted` in `encryption.ts`): three `:`-separated
segments whose first decodes to 12 bytes and third to 16 bytes. -/
def isEncrypted (value : List Nat) : Bool :=
  match splitOnColon value with
  | [p0, _, p2] => (b64Decode p0).length == IV_LENGTH && (b64Decode p2).length == TAG_LENGTH
  | _ => false

theorem keystreamByte_lt (key iv : List Nat) (i : Nat) : keystreamByte key iv i < 256 :=
  Nat.mod_lt _ (by omega)

theorem aeadEncryptBytes_length (key iv m : List Nat) :
    (aeadEncryptBytes key iv m).length = m.length := by
  simp [aeadEncryptBytes]

theorem aeadEncryptBytes_lt (key iv m : List Nat) (hm : ∀ x ∈ m, x < 256) :
    ∀ x ∈ aeadEncryptBytes key iv m, x < 256 := by
  intro x hx
  simp only [aeadEncryptBytes, List.mem_map, List.mem_range] at hx
  obtain ⟨i, hi, rfl⟩ := hx
  have h1 : m.getD i 0 < 256 := by
    have := List.getD_eq_getElem m 0 hi
    rw [this]
    exact hm _ (List.getElem_mem hi)
  have h2 : keystreamByte key iv i < 256 := keystreamByte_lt key iv i
  calc Nat.xor (m.getD i 0) (keystreamByte key iv i) < 2 ^ 8 :=
        Nat.xor_lt_two_pow h1 h2
    _ = 256 := rfl

theorem aead_roundtrip (key iv m : List Nat) :
    aeadDecryptBytes key iv (aeadEncryptBytes key iv m) = m := by
  apply List.ext_getElem
  · simp [aeadDecryptBytes, aeadEncryptBytes]
  · intro i h1 h2
    have hlen : (aeadEncryptBytes key iv m).length = m.length :=
      aeadEncryptBytes_length key iv m
    have hi : i < m.length := by
      simpa [aeadDecryptBytes, aeadEncryptBytes] using h1
    simp only [aeadDecryptBytes, aeadEncryptBytes, List.getElem_map, List.getElem_range]
    rw [List.getD_eq_getElem _ 0 (by simpa [aeadEncryptBytes_length] using hi)]
    simp only [aeadEncryptBytes, List.getElem_map, List.getElem_range]
    rw [List.getD_eq_getElem _ 0 hi]
    exact Nat.xor_cancel_right _ _

theorem authTag_length (key iv c : List Nat) : (authTag key iv c).length = 16 := by
  simp [authTag]

theorem authTag_lt (key iv c : List Nat) : ∀ x ∈ authTag key iv c, x < 256 := by
  intro x hx
  simp only [authTag, List.mem_map, List.mem_range] at hx
  obtain ⟨j, _, rfl⟩ := hx
  exact Nat.mod_lt _ (by omega)

/-- Main helper: decrypting an encrypted value recovers the plaintext bytes. -/
theorem decrypt_encrypt (key iv m : List Nat) (hiv : iv.length = 12)
    (hivb : ∀ x ∈ iv, x < 256) (hm : ∀ x ∈ m, x < 256) :
    decrypt key (encrypt key iv m) = .ok m := by
  unfold encrypt decrypt
  have hsplit : splitOnColon
      (b64Encode iv ++ 58 :: (b64Encode (aeadEncryptBytes key iv m) ++
        58 :: b64Encode (authTag key iv (aeadEncryptBytes key iv m)))) =
      [b64Encode iv, b64Encode (aeadEncryptBytes key iv m),
        b64Encode (authTag key iv (aeadEncryptBytes key iv m))] := by
    rw [splitOnColon_append _ _ (colon_not_mem_b64Encode iv)]
    rw [splitOnColon_append _ _ (colon_not_mem_b64Encode _)]
    rw [splitOnColon_no_colon _ (colon_not_mem_b64Encode _)]
  rw [hsplit]
  simp [b64Decode_b64Encode iv hivb, b64Decode_b64Encode _ (authTag_lt key iv _),
    b64Decode_b64Encode _ (aeadEncryptBytes_lt key iv m hm), hiv, IV_LENGTH, TAG_LENGTH,
    authTag_length, aead_roundtrip]

theorem sum_set_add (l : List Nat) (i : Nat) (b : Nat) (h : i < l.length) :
    (l.set i b).sum + l[i] = l.sum + b := by
  induction l generalizing i with
  | nil => simp at h
  | cons a t ih =>
      cases i with
      | zero => simp [List.set]; omega
      | succ j =>
          have hj : j < t.length := by simpa using h
          simp only [List.set, List.sum_cons, List.getElem_cons_succ]
          have := ih j hj
          omega

theorem set_lt (l : List Nat) (i b : Nat) (hb : b < 256) (hl : ∀ x ∈ l, x < 256) :
    ∀ x ∈ l.set i b, x < 256 := by
  intro x hx
  rcases List.mem_or_eq_of_mem_set hx with h | h
  · exact hl x h
  · omega

theorem authTag_ne_of_set (key iv c : List Nat) (i b : Nat) (hi : i < c.length)
    (hb : b < 256) (hc : ∀ x ∈ c, x < 256) (hne : b ≠ c.getD i 0) :
    authTag key iv (c.set i b) ≠ authTag key iv c := by
  intro h
  have hL1 : 0 < (authTag key iv (c.set i b)).length := by rw [authTag_length]; omega
  have hL2 : 0 < (authTag key iv c).length := by rw [authTag_length]; omega
  have h0 : (authTag key iv (c.set i b)).getD 0 0 = (authTag key iv c).getD 0 0 := by
    rw [h]
  rw [List.getD_eq_getElem _ 0 hL1, List.getD_eq_getElem _ 0 hL2] at h0
  simp only [authTag, List.getElem_map, List.getElem_range] at h0
  have hs := sum_set_add c i b hi
  rw [List.getD_eq_getElem c 0 hi] at hne
  have hci : c.getD i 0 < 256 := by
    rw [List.getD_eq_getElem c 0 hi]
    exact hc _ (List.getElem_mem hi)
  rw [List.getD_eq_getElem c 0 hi] at hci
  have hlen : (c.set i b).length = c.length := List.length_set c i b
  rw [hlen] at h0
  omega

theorem tag_set_ne (key iv c : List Nat) (i b : Nat) (hi : i < 16)
    (hne : b ≠ (authTag key iv c).getD i 0) :
    authTag key iv c ≠ (authTag key iv c).set i b := by
  intro h
  have hlen : i < (authTag key iv c).length := by rw [authTag_length]; omega
  have hset : ((authTag key iv c).set i b).getD i 0 = b := by
    rw [List.getD_eq_getElem _ 0 (by rw [List.length_set]; exact hlen)]
    exact List.getElem_set_self _
  have hcongr : (authTag key iv c).getD i 0 = ((authTag key iv c).set i b).getD i 0 := by
    rw [← h]
  rw [hset] at hcongr
  exact hne hcongr.symm

/-- Main helper: a single modified ciphertext byte makes `decrypt` fail. -/
theorem decrypt_ct_tampered (key iv m : List Nat) (i b : Nat) (hiv : iv.length = 12)
    (hivb : ∀ x ∈ iv, x < 256) (hm : ∀ x ∈ m, x < 256)
    (hi : i < (aeadEncryptBytes key iv m).length) (hb : b < 256)
    (hne : b ≠ (aeadEncryptBytes key iv m).getD i 0) :
    decrypt key (b64Encode iv ++ 58 ::
        (b64Encode ((aeadEncryptBytes key iv m).set i b) ++ 58 ::
          b64Encode (authTag key iv (aeadEncryptBytes key iv m)))) =
      .error "Unsupported state or unable to authenticate data" := by
  unfold decrypt
  rw [splitOnColon_append _ _ (colon_not_mem_b64Encode iv),
    splitOnColon_append _ _ (colon_not_mem_b64Encode _),
    splitOnColon_no_colon _ (colon_not_mem_b64Encode _)]
  have hcb : ∀ x ∈ (aeadEncryptBytes key iv m).set i b, x < 256 :=
    set_lt _ i b hb (aeadEncryptBytes_lt key iv m hm)
  have htagne := authTag_ne_of_set key iv (aeadEncryptBytes key iv m) i b hi hb
    (aeadEncryptBytes_lt key iv m hm) hne
  simp [b64Decode_b64Encode iv hivb, b64Decode_b64Encode _ (authTag_lt key iv _),
    b64Decode_b64Encode _ hcb, hiv, IV_LENGTH, TAG_LENGTH, authTag_length, htagne]

/-- Main helper: a single modified authentication-tag byte makes `decrypt` fail. -/
theorem decrypt_tag_tampered (key iv m : List Nat) (i b : Nat) (hiv : iv.length = 12)
    (hivb : ∀ x ∈ iv, x < 256) (hm : ∀ x ∈ m, x < 256) (hi : i < 16) (hb : b < 256)
    (hne : b ≠ (authTag key iv (aeadEncryptBytes key iv m)).getD i 0) :
    decrypt key (b64Encode iv ++ 58 ::
        (b64Encode (aeadEncryptBytes key iv m) ++ 58 ::
          b64Encode ((authTag key iv (aeadEncryptBytes key iv m)).set i b))) =
      .error "Unsupported state or unable to authenticate data" := by
  unfold decrypt
  rw [splitOnColon_append _ _ (colon_not_mem_b64Encode iv),
    splitOnColon_append _ _ (colon_not_mem_b64Encode _),
    splitOnColon_no_colon _ (colon_not_mem_b64Encode _)]
  have htb : ∀ x ∈ (authTag key iv (aeadEncryptBytes key iv m)).set i b, x < 256 :=
    set_lt _ i b hb (authTag_lt key iv _)
  have htagne := tag_set_ne key iv (aeadEncryptBytes key iv m) i b hi hne
  simp [b64Decode_b64Encode iv hivb, b64Decode_b64Encode _ htb,
    b64Decode_b64Encode _ (aeadEncryptBytes_lt key iv m hm), hiv, IV_LENGTH, TAG_LENGTH,
    authTag_length, List.length_set, htagne]

/-! ## OAuth state validation (`oauth-config.ts`, database-backed variant)

The `prisma.oAuthState` table is modelled as a list of records; Prisma's
`findUnique`/`delete` keyed on the unique `token` column are modelled as a
first-match lookup and removal of the keyed rows.  The base64url/JSON decode
of the `state` query parameter either yields a `(token, organizationId)` pair
or fails; the surrounding `try`/`catch` makes a decode failure return `null`,
so the decoded input is modelled as an `Option`. -/

/-- Row of the `oAuthState` table. -/
structure OAuthStateRecord where
  token : String
  organizationId : String
  platform : String
  expiresAt : Int
  deriving Repr, DecidableEq

/-- Unique lookup by the `token` key. -/
def findStateByToken (db : List OAuthStateRecord) (t : String) : Option OAuthStateRecord :=
  db.find? (fun r => r.token == t)

/-- Deletion by the `token` key. -/
def deleteStateByToken (db : List OAuthStateRecord) (t : String) : List OAuthStateRecord :=
  db.filter (fun r => r.token != t)

/-- Validation of an OAuth `state` parameter (`parseOAuthState` in
`oauth-config.ts`): decode, reject empty fields, look the token up, delete
the record unconditionally once found, then check expiry and organization
match on the already-deleted record.  Returns the result together with the
new table state. -/
def parseOAuthState (db : List OAuthStateRecord) (now : Int)
    (decoded : Option (String × String)) :
    Option (String × String) × List OAuthStateRecord :=
  match decoded with
  | none => (none, db)
  | some (token, organizationId) =>
      if token = "" ∨ organizationId = "" then (none, db)
      else
        match findStateByToken db token with
        | none => (none, db)
        | some stateRecord =>
            let db1 := deleteStateByToken db token
            if stateRecord.expiresAt < now then (none, db1)
            else if stateRecord.organizationId ≠ organizationId then (none, db1)
            else (some (stateRecord.organizationId, stateRecord.token), db1)

theorem findStateByToken_delete (db : List OAuthStateRecord) (t : String) :
    findStateByToken (deleteStateByToken db t) t = none := by
  unfold findStateByToken deleteStateByToken
  rw [List.find?_eq_none]
  intro r hr
  have := (List.mem_filter.mp hr).2
  simpa using this

theorem parseOAuthState_deletes (db : List OAuthStateRecord) (now : Int)
    (token organizationId : String) (rec : OAuthStateRecord)
    (hfound : findStateByToken db token = some rec)
    (htok : token ≠ "") (horg : organizationId ≠ "") :
    (parseOAuthState db now (some (token, organizationId))).2 =
      deleteStateByToken db token := by
  unfold parseOAuthState
  simp only [htok, horg, or_self, if_false, hfound]
  by_cases h1 : rec.expiresAt < now
  · simp [h1]
  · by_cases h2 : rec.organizationId ≠ organizationId
    · simp [h1, h2]
    · simp [h1, h2]

/-! ## Credential store (`credentials-service.ts`, encrypting variant)

The `prisma.platformCredential` table is modelled as a list of rows with the
compound unique key `(organizationId, platform)`; `upsert`/`findUnique` keyed
on it are modelled accordingly.  Token strings entering `encrypt` are their
byte sequences (`List Nat`), matching the cipher model above. -/

/-- Row of the `platformCredential` table (fields used by the claims). -/
structure PlatformCredentialRow where
  organizationId : String
  platform : String
  accessToken : List Nat
  refreshToken : Option (List Nat)
  expiresAt : Option Int
  platformUserId : Option String
  platformPageId : Option String
  isValid : Bool
  lastValidated : Int
  deriving Repr, DecidableEq

/-- Input of `saveCredentials`. -/
structure SaveCredentialsInput where
  organizationId : String
  platform : String
  accessToken : List Nat
  refreshToken : Option (List Nat)
  expiresAt : Option Int
  platformUserId : Option String
  platformPageId : Option String
  deriving Repr, DecidableEq

/-- Unique lookup by the `(organizationId, platform)` key. -/
def findCredential (db : List PlatformCredentialRow) (org platform : String) :
    Option PlatformCredentialRow :=
  db.find? (fun r => r.organizationId == org && r.platform == platform)

/-- Upsert (`saveCredentials` in the encrypting `credentials-service.ts`):
tokens are encrypted before storage, the row keyed by
`(organizationId, platform)` is replaced or created, `isValid` is set and
`lastValidated` stamped with the current time.  The nonces drawn for the two
`encrypt` calls and the clock are explicit arguments. -/
def saveCredentials (key iv1 iv2 : List Nat) (now : Int)
    (db : List PlatformCredentialRow) (input : SaveCredentialsInput) :
    List PlatformCredentialRow :=
  let encryptedAccessToken := encrypt key iv1 input.accessToken
  let encryptedRefreshToken := input.refreshToken.map (encrypt key iv2)
  let newRow : PlatformCredentialRow :=
    { organizationId := input.organizationId
      platform := input.platform
      accessToken := encryptedAccessToken
      refreshToken := encryptedRefreshToken
      expiresAt := input.expiresAt
      platformUserId := input.platformUserId
      platformPageId := input.platformPageId
      isValid := true
      lastValidated := now }
  match findCredential db input.organizationId input.platform with
  | some _ =>
      db.map (fun r =>
        if r.organizationId == input.organizationId && r.platform == input.platform
        then newRow else r)
  | none => db ++ [newRow]

/-- Read with decryption (`getCredentials` in the encrypting
`credentials-service.ts`): the stored tokens are decrypted when the
`isEncrypted` probe matches and returned unchanged otherwise; a decryption
failure propagates as an error. -/
def getCredentials (key : List Nat) (db : List PlatformCredentialRow)
    (org platform : String) : Except String (Option PlatformCredentialRow) :=
  match findCredential db org platform with
  | none => .ok none
  | some cred => do
      let accessToken ←
        if isEncrypted cred.accessToken then decrypt key cred.accessToken
        else .ok cred.accessToken
      let refreshToken ←
        match cred.refreshToken with
        | none => .ok none
        | some rt =>
            if isEncrypted rt then (decrypt key rt).map some
            else .ok (some rt)
      .ok (some { cred with accessToken := accessToken, refreshToken := refreshToken })

/-- At most one row per `(organizationId, platform)` pair. -/
def AtMostOnePerPair (db : List PlatformCredentialRow) : Prop :=
  db.Pairwise (fun r1 r2 => r1.organizationId ≠ r2.organizationId ∨ r1.platform ≠ r2.platform)

theorem saveCredentials_preserves (key iv1 iv2 : List Nat) (now : Int)
    (db : List PlatformCredentialRow) (input : SaveCredentialsInput)
    (h : AtMostOnePerPair db) :
    AtMostOnePerPair (saveCredentials key iv1 iv2 now db input) := by
  unfold saveCredentials
  cases hf : findCredential db input.organizationId input.platform with
  | some r0 =>
      simp only
      unfold AtMostOnePerPair at h ⊢
      rw [List.pairwise_map]
      refine h.imp_of_mem ?_
      intro r1 r2 h1 h2 hor
      by_cases e1 : r1.organizationId == input.organizationId && r1.platform == input.platform
      · by_cases e2 : r2.organizationId == input.organizationId && r2.platform == input.platform
        · exfalso
          simp only [Bool.and_eq_true, beq_iff_eq] at e1 e2
          rcases hor with hne | hne
          · exact hne (e1.1.trans e2.1.symm)
          · exact hne (e1.2.trans e2.2.symm)
        · simp only [e1, if_true, e2, if_false]
          simp only [Bool.and_eq_true, beq_iff_eq] at e1
          simp only [Bool.and_eq_true, beq_iff_eq, not_and_or] at e2
          rcases e2 with hne | hne
          · exact Or.inl (by simp [e1.1]; intro hcontra; exact hne hcontra.symm)
          · exact Or.inr (by simp [e1.2]; intro hcontra; exact hne hcontra.symm)
      · by_cases e2 : r2.organizationId == input.organizationId && r2.platform == input.platform
        · simp only [e1, if_false, e2, if_true]
          simp only [Bool.and_eq_true, beq_iff_eq, not_and_or] at e1
          rcases e1 with hne | hne
          · exact Or.inl (by simpa using hne)
          · exact Or.inr (by simpa using hne)
        · simp only [e1, if_false, e2, if_false]
          exact hor
  | none =>
      simp only
      unfold AtMostOnePerPair at h ⊢
      rw [List.pairwise_append]
      refine ⟨h, List.pairwise_singleton _ _, ?_⟩
      intro r1 h1 r2 h2
      simp only [List.mem_singleton] at h2
      subst h2
      simp only
      by_contra hcon
      push_neg at hcon
      have hfind : findCredential db input.organizationId input.platform ≠ none := by
        unfold findCredential
        rw [ne_eq, List.find?_eq_none]
        push_neg
        exact ⟨r1, h1, by simp [hcon.1, hcon.2]⟩
      exact hfind hf

theorem findCredential_saveCredentials (key iv1 iv2 : List Nat) (now : Int)
    (db : List PlatformCredentialRow) (input : SaveCredentialsInput) :
    findCredential (saveCredentials key iv1 iv2 now db input)
        input.organizationId input.platform =
      some { organizationId := input.organizationId
             platform := input.platform
             accessToken := encrypt key iv1 input.accessToken
             refreshToken := input.refreshToken.map (encrypt key iv2)
             expiresAt := input.expiresAt
             platformUserId := input.platformUserId
             platformPageId := input.platformPageId
             isValid := true
             lastValidated := now } := by
  unfold saveCredentials
  cases hf : findCredential db input.organizationId input.platform with
  | some r0 =>
      simp only
      unfold findCredential at hf ⊢
      induction db with
      | nil => simp at hf
      | cons r rest ih =>
          by_cases hr : r.organizationId == input.organizationId &&
              r.platform == input.platform
          · simp only [List.map_cons, hr, if_true]
            rw [List.find?_cons_of_pos _ (by simp)]
          · rw [List.find?_cons_of_neg _ (by simpa using hr)] at hf
            simp only [List.map_cons, hr, if_false]
            rw [List.find?_cons_of_neg _ (by simpa using hr)]
            exact ih hf
  | none =>
      simp only
      unfold findCredential at hf ⊢
      rw [List.find?_append]
      rw [hf]
      simp

/-- Helper for the credential read path: after a save, the read returns the
original plaintext tokens. -/
theorem getCredentials_after_save (key iv1 iv2 : List Nat) (now : Int)
    (db : List PlatformCredentialRow) (input : SaveCredentialsInput)
    (hkey : key.length = 32) (hiv1 : iv1.length = 12) (hiv2 : iv2.length = 12)
    (hiv1b : ∀ x ∈ iv1, x < 256) (hiv2b : ∀ x ∈ iv2, x < 256)
    (hat : ∀ x ∈ input.accessToken, x < 256)
    (hrt : ∀ rt, input.refreshToken = some rt → ∀ x ∈ rt, x < 256) :
    getCredentials key (saveCredentials key iv1 iv2 now db input)
        input.organizationId input.platform =
      .ok (some { organizationId := input.organizationId
                  platform := input.platform
                  accessToken := input.accessToken
                  refreshToken := input.refreshToken
                  expiresAt := input.expiresAt
                  platformUserId := input.platformUserId
                  platformPageId := input.platformPageId
                  isValid := true
                  lastValidated := now }) := by
  unfold getCredentials
  rw [findCredential_saveCredentials key iv1 iv2 now db input]
  have hisenc : isEncrypted (encrypt key iv1 input.accessToken) = true := by
    unfold isEncrypted encrypt
    rw [splitOnColon_append _ _ (colon_not_mem_b64Encode iv1),
      splitOnColon_append _ _ (colon_not_mem_b64Encode _),
      splitOnColon_no_colon _ (colon_not_mem_b64Encode _)]
    simp [b64Decode_b64Encode iv1 hiv1b, b64Decode_b64Encode _ (authTag_lt key iv1 _),
      hiv1, IV_LENGTH, TAG_LENGTH, authTag_length]
  simp only [hisenc, if_true]
  rw [decrypt_encrypt key iv1 input.accessToken hiv1 hiv1b hat]
  cases hr : input.refreshToken with
  | none => rfl
  | some rt =>
      have hrtb := hrt rt hr
      have hisenc2 : isEncrypted (encrypt key iv2 rt) = true := by
        unfold isEncrypted encrypt
        rw [splitOnColon_append _ _ (colon_not_mem_b64Encode iv2),
          splitOnColon_append _ _ (colon_not_mem_b64Encode _),
          splitOnColon_no_colon _ (colon_not_mem_b64Encode _)]
        simp [b64Decode_b64Encode iv2 hiv2b, b64Decode_b64Encode _ (authTag_lt key iv2 _),
          hiv2, IV_LENGTH, TAG_LENGTH, authTag_length]
      rw [show (Option.map (encrypt key iv2) (some rt)) = some (encrypt key iv2 rt) from rfl]
      simp only [hisenc2, if_true, decrypt_encrypt key iv2 rt hiv2 hiv2b hrtb]
      rfl

/-! ## Platform registry (`core/domain/platform.ts`) -/

inductive PlatformId where
  | facebook | linkedin | eventbrite | meetup | instagram | twitter
  | discord | whatsapp | zoomMeeting | zoomWebinar | localCalendar
  deriving Repr, DecidableEq

inductive AuthType where
  | oauth2 | apiKey | webhook | noAuth
  deriving Repr, DecidableEq

inductive SubscriptionTier where
  | free | basic | pro | business | enterprise
  deriving Repr, DecidableEq

structure PlatformCapabilities where
  supportsImages : Bool
  supportsVideo : Bool
  supportsRSVP : Bool
  supportsTicketing : Bool
  supportsRecurring : Bool
  supportsLocation : Bool
  supportsVirtual : Bool
  maxDescriptionLength : Nat
  maxTitleLength : Nat
  maxImages : Nat
  deriving Repr, DecidableEq

structure PlatformMetadata where
  id : PlatformId
  name : String
  displayName : String
  icon : String
  color : String
  authType : AuthType
  requiredTier : SubscriptionTier
  capabilities : PlatformCapabilities
  oauthScopes : Option (List String)
  apiDocsUrl : Option String
  deriving Repr, DecidableEq

/-- The compiled-in registry `PLATFORMS`. -/
def PLATFORMS : PlatformId → PlatformMetadata
  | .facebook =>
      { id := .facebook, name := "facebook", displayName := "Facebook Events"
        icon := "facebook", color := "#1877F2", authType := .oauth2, requiredTier := .basic
        capabilities :=
          { supportsImages := true, supportsVideo := true, supportsRSVP := true
            supportsTicketing := false, supportsRecurring := true, supportsLocation := true
            supportsVirtual := true, maxDescriptionLength := 63206, maxTitleLength := 100
            maxImages := 10 }
        oauthScopes := some ["pages_manage_posts", "pages_read_engagement"]
        apiDocsUrl := some "https://developers.facebook.com/docs/graph-api/reference/event/" }
  | .linkedin =>
      { id := .linkedin, name := "linkedin", displayName := "LinkedIn Events"
        icon := "linkedin", color := "#0A66C2", authType := .oauth2, requiredTier := .basic
        capabilities :=
          { supportsImages := true, supportsVideo := false, supportsRSVP := true
            supportsTicketing := false, supportsRecurring := false, supportsLocation := true
            supportsVirtual := true, maxDescriptionLength := 2000, maxTitleLength := 200
            maxImages := 1 }
        oauthScopes := some ["w_organization_social", "r_organization_social"]
        apiDocsUrl := some "https://learn.microsoft.com/en-us/linkedin/marketing/integrations/community-management/shares/events-api" }
  | .eventbrite =>
      { id := .eventbrite, name := "eventbrite", displayName := "Eventbrite"
        icon := "ticket", color := "#F05537", authType := .oauth2, requiredTier := .basic
        capabilities :=
          { supportsImages := true, supportsVideo := false, supportsRSVP := true
            supportsTicketing := true, supportsRecurring := true, supportsLocation := true
            supportsVirtual := true, maxDescriptionLength := 10000, maxTitleLength := 75
            maxImages := 10 }
        oauthScopes := some ["event_management"]
        apiDocsUrl := some "https://www.eventbrite.com/platform/api" }
  | .meetup =>
      { id := .meetup, name := "meetup", displayName := "Meetup"
        icon := "users", color := "#ED1C40", authType := .oauth2, requiredTier := .pro
        capabilities :=
          { supportsImages := true, supportsVideo := false, supportsRSVP := true
            supportsTicketing := false, supportsRecurring := true, supportsLocation := true
            supportsVirtual := true, maxDescriptionLength := 50000, maxTitleLength := 80
            maxImages := 1 }
        oauthScopes := some ["event_management"]
        apiDocsUrl := some "https://www.meetup.com/api/schema/" }
  | .instagram =>
      { id := .instagram, name := "instagram", displayName := "Instagram"
        icon := "instagram", color := "#E4405F", authType := .oauth2, requiredTier := .basic
        capabilities :=
          { supportsImages := true, supportsVideo := true, supportsRSVP := false
            supportsTicketing := false, supportsRecurring := false, supportsLocation := true
            supportsVirtual := false, maxDescriptionLength := 2200, maxTitleLength := 0
            maxImages := 10 }
        oauthScopes := some ["instagram_basic", "instagram_content_publish"]
        apiDocsUrl := some "https://developers.facebook.com/docs/instagram-api/" }
  | .twitter =>
      { id := .twitter, name := "twitter", displayName := "X (Twitter)"
        icon := "twitter", color := "#000000", authType := .oauth2, requiredTier := .basic
        capabilities :=
          { supportsImages := true, supportsVideo := true, supportsRSVP := false
            supportsTicketing := false, supportsRecurring := false, supportsLocation := false
            supportsVirtual := false, maxDescriptionLength := 280, maxTitleLength := 0
            maxImages := 4 }
        oauthScopes := some ["tweet.read", "tweet.write", "users.read"]
        apiDocsUrl := some "https://developer.twitter.com/en/docs/twitter-api" }
  | .discord =>
      { id := .discord, name := "discord", displayName := "Discord"
        icon := "message-circle", color := "#5865F2", authType := .webhook, requiredTier := .pro
        capabilities :=
          { supportsImages := true, supportsVideo := false, supportsRSVP := false
            supportsTicketing := false, supportsRecurring := false, supportsLocation := false
            supportsVirtual := true, maxDescriptionLength := 4096, maxTitleLength := 256
            maxImages := 10 }
        oauthScopes := none
        apiDocsUrl := some "https://discord.com/developers/docs/resources/webhook" }
  | .whatsapp =>
      { id := .whatsapp, name := "whatsapp", displayName := "WhatsApp"
        icon := "message-square", color := "#25D366", authType := .apiKey
        requiredTier := .business
        capabilities :=
          { supportsImages := true, supportsVideo := true, supportsRSVP := false
            supportsTicketing := false, supportsRecurring := false, supportsLocation := true
            supportsVirtual := false, maxDescriptionLength := 4096, maxTitleLength := 0
            maxImages := 1 }
        oauthScopes := none
        apiDocsUrl := some "https://developers.facebook.com/docs/whatsapp/business-management-api/" }
  | .zoomMeeting =>
      { id := .zoomMeeting, name := "zoom-meeting", displayName := "Zoom Meeting"
        icon := "video", color := "#2D8CFF", authType := .oauth2, requiredTier := .basic
        capabilities :=
          { supportsImages := false, supportsVideo := false, supportsRSVP := true
            supportsTicketing := false, supportsRecurring := true, supportsLocation := false
            supportsVirtual := true, maxDescriptionLength := 2000, maxTitleLength := 200
            maxImages := 0 }
        oauthScopes := some ["meeting:write", "user:read"]
        apiDocsUrl := some "https://developers.zoom.us/docs/api/" }
  | .zoomWebinar =>
      { id := .zoomWebinar, name := "zoom-webinar", displayName := "Zoom Webinar"
        icon := "presentation", color := "#2D8CFF", authType := .oauth2, requiredTier := .pro
        capabilities :=
          { supportsImages := false, supportsVideo := false, supportsRSVP := true
            supportsTicketing := false, supportsRecurring := true, supportsLocation := false
            supportsVirtual := true, maxDescriptionLength := 2000, maxTitleLength := 200
            maxImages := 0 }
        oauthScopes := some ["webinar:write", "user:read"]
        apiDocsUrl := some "https://developers.zoom.us/docs/api/" }
  | .localCalendar =>
      { id := .localCalendar, name := "local-calendar", displayName := "Local Calendar (iCal)"
        icon := "calendar", color := "#6B7280", authType := .noAuth, requiredTier := .free
        capabilities :=
          { supportsImages := false, supportsVideo := false, supportsRSVP := false
            supportsTicketing := false, supportsRecurring := true, supportsLocation := true
            supportsVirtual := true, maxDescriptionLength := 10000, maxTitleLength := 255
            maxImages := 0 }
        oauthScopes := none
        apiDocsUrl := some "https://icalendar.org/" }

/-! ## Canonical event domain model (`core/domain/event.ts`) -/

/-- JS-string truthiness of an optional string field: `undefined` and the
empty string are falsy. -/
def jsTruthy : Option (List Nat) → Bool
  | none => false
  | some s => !s.isEmpty

/-- Code-unit list of an ASCII Lean string literal. -/
def ofAscii (s : String) : List Nat :=
  s.data.map Char.toNat

structure EventLocation where
  name : List Nat
  address : Option (List Nat)
  city : Option (List Nat)
  state : Option (List Nat)
  country : Option (List Nat)
  postalCode : Option (List Nat)
  latitude : Option Int
  longitude : Option Int
  virtualUrl : Option (List Nat)
  isVirtual : Bool
  deriving Repr, DecidableEq

structure EventOrganizer where
  name : List Nat
  email : Option (List Nat)
  phone : Option (List Nat)
  website : Option (List Nat)
  deriving Repr, DecidableEq

structure EventTicket where
  name : List Nat
  price : Int
  currency : List Nat
  quantity : Option Int
  description : Option (List Nat)
  deriving Repr, DecidableEq

inductive EventStatus where
  | draft | scheduled | published | cancelled
  deriving Repr, DecidableEq

inductive EventVisibility where
  | visPublic | visPrivate | unlisted
  deriving Repr, DecidableEq

/-- Canonical event (`Event` in `core/domain/event.ts`); `Date` values are
epoch milliseconds. -/
structure Event where
  id : List Nat
  organizationId : List Nat
  title : List Nat
  description : List Nat
  shortDescription : Option (List Nat)
  startTime : Int
  endTime : Int
  timezone : List Nat
  isAllDay : Bool
  location : EventLocation
  coverImageUrl : Option (List Nat)
  thumbnailUrl : Option (List Nat)
  galleryUrls : Option (List (List Nat))
  tickets : Option (List EventTicket)
  isFree : Bool
  registrationUrl : Option (List Nat)
  maxAttendees : Option Int
  category : Option (List Nat)
  tags : Option (List (List Nat))
  organizer : EventOrganizer
  status : EventStatus
  visibility : EventVisibility
  createdAt : Int
  updatedAt : Int
  createdBy : List Nat
  deriving Repr, DecidableEq

/-! ## Platform adapter port (`core/ports/platform-adapter.ts`) -/

structure TransformedLocation where
  name : Option (List Nat)
  address : Option (List Nat)
  virtualUrl : Option (List Nat)
  isVirtual : Bool
  deriving Repr, DecidableEq

/-- Value in a `TransformedEvent` metadata bag (`Record<string, unknown>`):
the adapters store event strings, optional event strings, booleans, strings
coming from the network layer, and the whole organizer object. -/
inductive MetaValue where
  | str (s : List Nat)
  | optStr (s : Option (List Nat))
  | boolVal (b : Bool)
  | netStr (s : String)
  | optNetStr (s : Option String)
  | organizerVal (o : EventOrganizer)
  deriving Repr, DecidableEq

structure TransformedEvent where
  platformId : PlatformId
  title : List Nat
  description : List Nat
  startTime : Int
  endTime : Int
  timezone : List Nat
  location : Option TransformedLocation
  imageUrl : Option (List Nat)
  metadata : List (String × MetaValue)
  deriving Repr, DecidableEq

/-- JS `String.prototype.slice(0, e)` on code units: a negative end counts
from the end of the string. -/
def jsSliceTo (s : List Nat) (e : Int) : List Nat :=
  s.take (if e < 0 then ((s.length : Int) + e).toNat else e.toNat)

/-- Shared truncation helper (`BasePlatformAdapter.truncate`): texts over the
limit are cut at `maxLength - 3` code units and suffixed with `...`. -/
def truncate (text : List Nat) (maxLength : Nat) : List Nat :=
  if text.length ≤ maxLength then text
  else jsSliceTo text ((maxLength : Int) - 3) ++ [46, 46, 46]

/-- Well-formedness of a UTF-16 code-unit sequence: every high surrogate is
followed by a low surrogate and no low surrogate appears unpaired.  A string
that fails this test contains a split multi-byte character. -/
def wellFormedUTF16 : List Nat → Bool
  | [] => true
  | c :: rest =>
      if 0xD800 ≤ c ∧ c ≤ 0xDBFF then
        match rest with
        | c2 :: rest2 => decide (0xDC00 ≤ c2 ∧ c2 ≤ 0xDFFF) && wellFormedUTF16 rest2
        | [] => false
      else decide (c < 0xDC00 ∨ 0xDFFF < c) && wellFormedUTF16 rest

/-! ## Facebook adapter (`facebook-adapter.ts`) -/

structure FacebookCredentials where
  accessToken : String
  pageId : String
  pageName : Option String
  deriving Repr, DecidableEq

/-- Address formatting (`buildFacebookAddress`): truthy parts joined by `, `. -/
def buildFacebookAddress (location : EventLocation) : List Nat :=
  List.intercalate (ofAscii ", ")
    ([location.address, location.city, location.state, location.postalCode,
      location.country].filterMap (fun f => if jsTruthy f then f else none))

/-- Facebook `transformEvent`. -/
def FacebookAdapter.transformEvent (e : Event) : TransformedEvent :=
  let caps := (PLATFORMS .facebook).capabilities
  let description :=
    if e.description.length > caps.maxDescriptionLength then
      truncate e.description caps.maxDescriptionLength
    else e.description
  let location : TransformedLocation :=
    if e.location.isVirtual ∧ jsTruthy e.location.virtualUrl then
      { isVirtual := e.location.isVirtual, virtualUrl := e.location.virtualUrl
        name := some (ofAscii "Online Event"), address := none }
    else
      { isVirtual := e.location.isVirtual, virtualUrl := none
        name := some e.location.name, address := some (buildFacebookAddress e.location) }
  { platformId := .facebook
    title := truncate e.title caps.maxTitleLength
    description := description
    startTime := e.startTime
    endTime := e.endTime
    timezone := e.timezone
    location := some location
    imageUrl := e.coverImageUrl
    metadata :=
      [("eventId", .str e.id), ("category", .optStr e.category),
        ("isOnline", .boolVal e.location.isVirtual),
        ("ticketUrl", .optStr e.registrationUrl)] }

/-! ## LinkedIn adapter (`linkedin-adapter.ts`, `LinkedInAdapter`) -/

structure LinkedInCredentials where
  accessToken : String
  organizationId : String
  organizationName : Option String
  deriving Repr, DecidableEq

/-- Emoji test of `professionalizeDescription`.  The Unicode `\p\x7bEmoji\x7d`
class of the host regex engine is external to the repository; it is
approximated here by the main emoji blocks, on code units.  No claim depends
on this predicate. -/
def isEmojiCode (c : Nat) : Bool :=
  (0x2600 ≤ c && c ≤ 0x27BF) || (0x1F000 ≤ c && c ≤ 0x1FAFF)

/-- Replacement pass of `professionalizeDescription`: every emoji after the
second is deleted. -/
def keepFirstTwoEmoji : List Nat → Nat → List Nat
  | [], _ => []
  | c :: rest, seen =>
      if isEmojiCode c then
        if seen < 2 then c :: keepFirstTwoEmoji rest (seen + 1)
        else keepFirstTwoEmoji rest (seen + 1)
      else c :: keepFirstTwoEmoji rest seen

/-- Newline cleanup of `professionalizeDescription`: runs of three or more
newlines collapse to two. -/
def collapseNewlines : List Nat → List Nat
  | 10 :: 10 :: 10 :: rest => collapseNewlines (10 :: 10 :: rest)
  | c :: rest => c :: collapseNewlines rest
  | [] => []
termination_by s => s.length

/-- Whitespace class of JS `String.prototype.trim` (common subset). -/
def isJsSpace (c : Nat) : Bool :=
  c == 9 || c == 10 || c == 11 || c == 12 || c == 13 || c == 32 ||
    c == 160 || c == 0xFEFF || c == 0x2028 || c == 0x2029

/-- JS `trim`: whitespace removed from both ends. -/
def trimJS (s : List Nat) : List Nat :=
  ((s.dropWhile isJsSpace).reverse.dropWhile isJsSpace).reverse

/-- LinkedIn `professionalizeDescription`: at most two emoji, collapsed
newlines, trimmed. -/
def professionalizeDescription (description : List Nat) : List Nat :=
  let emojis := description.filter isEmojiCode
  let d1 := if emojis.length > 2 then keepFirstTwoEmoji description 0 else description
  trimJS (collapseNewlines d1)

/-- Address formatting (`buildLinkedInAddress`): like Facebook but without a
postal code. -/
def buildLinkedInAddress (location : EventLocation) : List Nat :=
  List.intercalate (ofAscii ", ")
    ([location.address, location.city, location.state,
      location.country].filterMap (fun f => if jsTruthy f then f else none))

/-- LinkedIn `transformEvent`; the adapter state contributes the optional
organization id placed in the metadata bag. -/
def LinkedInAdapter.transformEvent (credentials : Option LinkedInCredentials)
    (e : Event) : TransformedEvent :=
  let caps := (PLATFORMS .linkedin).capabilities
  let d0 :=
    if e.description.length > caps.maxDescriptionLength then
      truncate e.description caps.maxDescriptionLength
    else e.description
  let description := professionalizeDescription d0
  let location : TransformedLocation :=
    if e.location.isVirtual ∧ jsTruthy e.location.virtualUrl then
      { isVirtual := e.location.isVirtual, virtualUrl := e.location.virtualUrl
        name := some (ofAscii "Virtual Event"), address := none }
    else
      { isVirtual := e.location.isVirtual, virtualUrl := none
        name := some e.location.name, address := some (buildLinkedInAddress e.location) }
  { platformId := .linkedin
    title := truncate e.title caps.maxTitleLength
    description := description
    startTime := e.startTime
    endTime := e.endTime
    timezone := e.timezone
    location := some location
    imageUrl := e.coverImageUrl
    metadata :=
      [("eventId", .str e.id),
        ("organizationId", .optNetStr (credentials.map (·.organizationId))),
        ("registrationUrl", .optStr e.registrationUrl),
        ("category", .optStr e.category)] }

/-! ## Zoom adapter (`linkedin-adapter.ts` dump, `ZoomAdapter`) -/

structure ZoomCredentials where
  accessToken : String
  userId : String
  email : Option String
  displayName : Option String
  deriving Repr, DecidableEq

/-- The constructor argument `ZoomPlatformType`. -/
inductive ZoomPlatformType where
  | zoomMeeting | zoomWebinar
  deriving Repr, DecidableEq

/-- The product mode derived from it (`this.zoomType`). -/
inductive ZoomProductType where
  | meeting | webinar
  deriving Repr, DecidableEq

/-- Adapter-instance state of `ZoomAdapter`: the two readonly fields fixed by
the constructor plus the mutable credential slot. -/
structure ZoomAdapterState where
  platformId : PlatformId
  zoomType : ZoomProductType
  credentials : Option ZoomCredentials
  deriving Repr, DecidableEq

def ZoomPlatformType.toPlatformId : ZoomPlatformType → PlatformId
  | .zoomMeeting => .zoomMeeting
  | .zoomWebinar => .zoomWebinar

/-- The `ZoomAdapter` constructor: platform id and mode are fixed at
creation, no credentials are held. -/
def mkZoomAdapter (type : ZoomPlatformType) : ZoomAdapterState :=
  { platformId := type.toPlatformId
    zoomType := match type with | .zoomWebinar => .webinar | .zoomMeeting => .meeting
    credentials := none }

def ZoomProductType.asString : ZoomProductType → String
  | .meeting => "meeting"
  | .webinar => "webinar"

/-- Zoom `transformEvent`: the location is forced virtual. -/
def ZoomAdapter.transformEvent (s : ZoomAdapterState) (e : Event) : TransformedEvent :=
  let caps := (PLATFORMS s.platformId).capabilities
  let description :=
    if e.description.length > caps.maxDescriptionLength then
      truncate e.description caps.maxDescriptionLength
    else e.description
  let location : TransformedLocation :=
    { isVirtual := true
      virtualUrl := if jsTruthy e.location.virtualUrl then e.location.virtualUrl else none
      name := none, address := none }
  { platformId := s.platformId
    title := truncate e.title caps.maxTitleLength
    description := description
    startTime := e.startTime
    endTime := e.endTime
    timezone := e.timezone
    location := some location
    imageUrl := e.coverImageUrl
    metadata :=
      [("eventId", .str e.id),
        ("userId", .optNetStr (s.credentials.map (·.userId))),
        ("zoomType", .netStr s.zoomType.asString),
        ("registrationUrl", .optStr e.registrationUrl)] }

/-! ## Local calendar adapter (`local-calendar-adapter.ts`) -/

/-- Address formatting (`formatAddress`). -/
def formatAddress (location : EventLocation) : List Nat :=
  List.intercalate (ofAscii ", ")
    ([location.address, location.city, location.state, location.postalCode,
      location.country].filterMap (fun f => if jsTruthy f then f else none))

/-- Local-calendar `transformEvent`: the title limit 255 is hardcoded in the
source and coincides with the registry entry. -/
def LocalCalendarAdapter.transformEvent (e : Event) : TransformedEvent :=
  { platformId := .localCalendar
    title := truncate e.title 255
    description := e.description
    startTime := e.startTime
    endTime := e.endTime
    timezone := e.timezone
    location := some
      { name := some e.location.name
        address := some (formatAddress e.location)
        virtualUrl := e.location.virtualUrl
        isVirtual := e.location.isVirtual }
    imageUrl := none
    metadata :=
      [("organizer", .organizerVal e.organizer),
        ("category", .optStr e.category),
        ("uid", .str e.id)] }

theorem truncate_of_le (text : List Nat) (maxLength : Nat) (h : text.length ≤ maxLength) :
    truncate text maxLength = text := by
  simp [truncate, h]

theorem truncate_of_gt (text : List Nat) (maxLength : Nat) (h : maxLength < text.length)
    (h3 : 3 ≤ maxLength) :
    (truncate text maxLength).length = maxLength ∧
      [46, 46, 46] <:+ truncate text maxLength := by
  unfold truncate jsSliceTo
  rw [if_neg (by omega)]
  rw [if_neg (by omega : ¬((maxLength : Int) - 3 < 0))]
  rw [show ((maxLength : Int) - 3).toNat = maxLength - 3 by omega]
  constructor
  · rw [List.length_append, List.length_take]
    simp only [List.length_cons, List.length_nil]
    omega
  · exact ⟨_, rfl⟩

/-- Per-transform title specification used by claim C1: an over-limit title
is truncated to exactly the limit with a `...` suffix, a title at or under
the limit is returned unchanged. -/
def TitleTruncationSpec (e : Event) (t : TransformedEvent) (maxTitle : Nat) : Prop :=
  (maxTitle < e.title.length → t.title.length = maxTitle ∧ [46, 46, 46] <:+ t.title) ∧
    (e.title.length ≤ maxTitle → t.title = e.title)

/-- A concrete physical location used by witness events. -/
def sampleLocation : EventLocation :=
  { name := ofAscii "HQ", address := some (ofAscii "1 Main St"), city := none, state := none
    country := none, postalCode := none, latitude := none, longitude := none
    virtualUrl := none, isVirtual := false }

def sampleOrganizer : EventOrganizer :=
  { name := ofAscii "Ops", email := none, phone := none, website := none }

/-- A title of 51 emoji: 102 UTF-16 code units, each character one surrogate
pair `D83D DE00`. -/
def emojiTitle : List Nat :=
  (List.replicate 51 [0xD83D, 0xDE00]).flatten

/-- A canonical event whose title is `emojiTitle`. -/
def surrogateEvent : Event :=
  { id := ofAscii "e1", organizationId := ofAscii "o1", title := emojiTitle
    description := ofAscii "d", shortDescription := none, startTime := 0, endTime := 3600000
    timezone := ofAscii "UTC", isAllDay := false, location := sampleLocation
    coverImageUrl := none, thumbnailUrl := none, galleryUrls := none, tickets := none
    isFree := true, registrationUrl := none, maxAttendees := none, category := none
    tags := none, organizer := sampleOrganizer, status := .published
    visibility := .visPublic, createdAt := 0, updatedAt := 0, createdBy := ofAscii "u" }

/-- Claim C1, counterexample: the Facebook adapter truncates an over-limit
title consisting of well-formed surrogate pairs into a title that is no
longer well-formed UTF-16 — the cut at code unit 97 splits a surrogate pair,
so a multi-byte character IS split. -/
theorem title_truncation_splits_surrogate :
    wellFormedUTF16 surrogateEvent.title = true ∧
      (PLATFORMS .facebook).capabilities.maxTitleLength < surrogateEvent.title.length ∧
      wellFormedUTF16 (FacebookAdapter.transformEvent surrogateEvent).title = false := by
  decide

/-- Claim C1 (amended): for the Facebook, LinkedIn, Zoom (either mode) and
local-calendar adapters, a title longer than the registry limit is truncated
to exactly `maxTitleLength` code units ending in `...`, and a title at or
under the limit is returned unchanged.  Truncation counts and cuts UTF-16
code units, so it can split a surrogate pair (see the counterexample). -/
theorem adapter_title_truncation (e : Event) (lc : Option LinkedInCredentials)
    (zt : ZoomPlatformType) (zc : Option ZoomCredentials) :
    TitleTruncationSpec e (FacebookAdapter.transformEvent e)
        (PLATFORMS .facebook).capabilities.maxTitleLength ∧
      TitleTruncationSpec e (LinkedInAdapter.transformEvent lc e)
        (PLATFORMS .linkedin).capabilities.maxTitleLength ∧
      TitleTruncationSpec e
        (ZoomAdapter.transformEvent { mkZoomAdapter zt with credentials := zc } e)
        (PLATFORMS zt.toPlatformId).capabilities.maxTitleLength ∧
      TitleTruncationSpec e (LocalCalendarAdapter.transformEvent e)
        (PLATFORMS .localCalendar).capabilities.maxTitleLength := by
  have spec : ∀ (t : TransformedEvent) (maxTitle : Nat), 3 ≤ maxTitle →
      t.title = truncate e.title maxTitle → TitleTruncationSpec e t maxTitle := by
    intro t maxTitle h3 ht
    constructor
    · intro hover
      rw [ht]
      exact truncate_of_gt e.title maxTitle hover h3
    · intro hunder
      rw [ht]
      exact truncate_of_le e.title maxTitle hunder
  refine ⟨spec _ _ (by decide) rfl, spec _ _ (by decide) rfl, ?_, spec _ _ (by decide) rfl⟩
  cases zt with
  | zoomMeeting => exact spec _ _ (by decide) rfl
  | zoomWebinar => exact spec _ _ (by decide) rfl

/-- Claim C1, witness: the amended theorem applied to the concrete emoji
event on Facebook. -/
theorem adapter_title_truncation_witness :
    (FacebookAdapter.transformEvent surrogateEvent).title.length = 100 ∧
      [46, 46, 46] <:+ (FacebookAdapter.transformEvent surrogateEvent).title :=
  (adapter_title_truncation surrogateEvent none .zoomMeeting none).1.1 (by decide)

/-! ## Publication results and the HTTP boundary

`PublicationError.timestamp` (`new Date()`) is a wall-clock read carried
through unchanged; it is not modelled.  The outcome of each `fetch` call is
an explicit argument: either the HTTP layer throws (timeout, DNS, connection
reset) or a response arrives with a status code and a parsed JSON body.
Adapter operations return, besides their result, the list of request URLs
actually fetched, so that "no network call was made" is expressible. -/

structure PublicationError where
  code : String
  message : String
  retryable : Bool
  deriving Repr, DecidableEq

structure PublicationResult where
  success : Bool
  publicationId : String
  externalId : Option String
  externalUrl : Option String
  error : Option PublicationError
  deriving Repr, DecidableEq

structure ConnectionResult where
  success : Bool
  platformId : PlatformId
  accountName : Option String
  accountId : Option String
  error : Option String
  deriving Repr, DecidableEq

inductive FetchOutcome (β : Type) where
  | thrown (message : String)
  | resp (status : Nat) (body : β)
  deriving Repr, DecidableEq

/-- JS `Response.ok`: status in 200-299. -/
def httpOk (status : Nat) : Bool :=
  200 ≤ status && status < 300

/-- JS `someOptional || fallback` on strings: `undefined` and `""` are falsy. -/
def jsOrStr (s : Option String) (fallback : String) : String :=
  match s with
  | some v => if v = "" then fallback else v
  | none => fallback

def FACEBOOK_GRAPH_API_BASE : String := "https://graph.facebook.com/v19.0"

/-- Parsed JSON body of a Facebook Graph response: the error envelope fields
read on failure and the event id read on success. -/
structure FacebookResponseBody where
  errorCode : Option Nat
  errorMessage : Option String
  id : String
  deriving Repr, DecidableEq

/-- Facebook `isRetryableError`: decided solely by the in-body Graph error
code — rate limits 4, 17, 341 and temporary server errors 1, 2. -/
def FacebookAdapter.isRetryableError (errorCode : Option Nat) : Bool :=
  if errorCode == some 4 || errorCode == some 17 || errorCode == some 341 then true
  else if errorCode == some 1 || errorCode == some 2 then true
  else false

/-- Error-code tag `FB_${errorData.error?.code || 'UNKNOWN'}` (a code of `0`
is falsy in JS). -/
def fbErrorCodeTag (errorCode : Option Nat) : String :=
  match errorCode with
  | some c => if c = 0 then "FB_UNKNOWN" else "FB_" ++ toString c
  | none => "FB_UNKNOWN"

def FacebookAdapter.getEventUrl (externalId : String) : String :=
  "https://www.facebook.com/events/" ++ externalId

/-- The adapter starts disconnected (`credentials = null`). -/
def FacebookAdapter.initialCredentials : Option FacebookCredentials := none

/-- `disconnect` clears the stored credentials. -/
def FacebookAdapter.disconnect (_ : Option FacebookCredentials) :
    Option FacebookCredentials := none

def notConnectedResult (message : String) : PublicationResult :=
  { success := false, publicationId := "", externalId := none, externalUrl := none
    error := some { code := "NOT_CONNECTED", message := message, retryable := false } }

/-- Facebook `createEvent`. -/
def FacebookAdapter.createEvent (credentials : Option FacebookCredentials)
    (http : FetchOutcome FacebookResponseBody) : PublicationResult × List String :=
  match credentials with
  | none => (notConnectedResult "Not connected to Facebook. Call connect() first.", [])
  | some c =>
      let url := FACEBOOK_GRAPH_API_BASE ++ "/" ++ c.pageId ++ "/events"
      match http with
      | .thrown msg =>
          ({ success := false, publicationId := "", externalId := none, externalUrl := none
             error := some { code := "NETWORK_ERROR", message := msg, retryable := true } },
            [url])
      | .resp status body =>
          if httpOk status then
            ({ success := true, publicationId := "fb-" ++ body.id
               externalId := some body.id
               externalUrl := some (FacebookAdapter.getEventUrl body.id)
               error := none }, [url])
          else
            ({ success := false, publicationId := "", externalId := none, externalUrl := none
               error := some
                 { code := fbErrorCodeTag body.errorCode
                   message := jsOrStr body.errorMessage "Failed to create Facebook event"
                   retryable := FacebookAdapter.isRetryableError body.errorCode } }, [url])

/-- Facebook `updateEvent`. -/
def FacebookAdapter.updateEvent (credentials : Option FacebookCredentials)
    (externalId : String) (http : FetchOutcome FacebookResponseBody) :
    PublicationResult × List String :=
  match credentials with
  | none => (notConnectedResult "Not connected to Facebook. Call connect() first.", [])
  | some _ =>
      let url := FACEBOOK_GRAPH_API_BASE ++ "/" ++ externalId
      match http with
      | .thrown msg =>
          ({ success := false, publicationId := "fb-" ++ externalId
             externalId := none, externalUrl := none
             error := some { code := "NETWORK_ERROR", message := msg, retryable := true } },
            [url])
      | .resp status body =>
          if httpOk status then
            ({ success := true, publicationId := "fb-" ++ externalId
               externalId := some externalId
               externalUrl := some (FacebookAdapter.getEventUrl externalId)
               error := none }, [url])
          else
            ({ success := false, publicationId := "fb-" ++ externalId
               externalId := none, externalUrl := none
               error := some
                 { code := fbErrorCodeTag body.errorCode
                   message := jsOrStr body.errorMessage "Failed to update Facebook event"
                   retryable := FacebookAdapter.isRetryableError body.errorCode } }, [url])

/-- Facebook `deleteEvent`: throws (here: returns `.error`) when not
connected or on a non-ok response; there is no `try`/`catch`, so an HTTP
exception propagates. -/
def FacebookAdapter.deleteEvent (credentials : Option FacebookCredentials)
    (externalId : String) (http : FetchOutcome FacebookResponseBody) :
    Except String Unit × List String :=
  match credentials with
  | none => (.error "Not connected to Facebook. Call connect() first.", [])
  | some c =>
      let url := FACEBOOK_GRAPH_API_BASE ++ "/" ++ externalId ++ "?access_token=" ++
        c.accessToken
      match http with
      | .thrown msg => (.error msg, [url])
      | .resp status body =>
          if httpOk status then (.ok (), [url])
          else (.error (jsOrStr body.errorMessage "Failed to delete Facebook event"), [url])

/-! ## LinkedIn network operations -/

def LINKEDIN_REST_API_BASE : String := "https://api.linkedin.com/rest"

/-- Parsed LinkedIn response: error envelope (`message`, in-body `status`),
the `x-restli-id` response header, and the body event id. -/
structure LinkedInResponseBody where
  message : Option String
  statusField : Option Nat
  restliId : Option String
  id : String
  deriving Repr, DecidableEq

/-- LinkedIn `isRetryableError`: by HTTP status — 429 and 5xx. -/
def LinkedInAdapter.isRetryableError (statusCode : Nat) : Bool :=
  if statusCode == 429 then true
  else if 500 ≤ statusCode && statusCode < 600 then true
  else false

/-- Error-code tag `LI_${errorData.status || 'UNKNOWN'}`. -/
def liErrorCodeTag (statusField : Option Nat) : String :=
  match statusField with
  | some s => if s = 0 then "LI_UNKNOWN" else "LI_" ++ toString s
  | none => "LI_UNKNOWN"

def LinkedInAdapter.getEventUrl (externalId : String) : String :=
  "https://www.linkedin.com/events/" ++ externalId

def LinkedInAdapter.initialCredentials : Option LinkedInCredentials := none

def LinkedInAdapter.disconnect (_ : Option LinkedInCredentials) :
    Option LinkedInCredentials := none

/-- Event id used on success: the `x-restli-id` header, falling back to the
body id when the header is absent or empty. -/
def liEventId (body : LinkedInResponseBody) : String :=
  jsOrStr body.restliId body.id

/-- LinkedIn `createEvent`. -/
def LinkedInAdapter.createEvent (credentials : Option LinkedInCredentials)
    (http : FetchOutcome LinkedInResponseBody) : PublicationResult × List String :=
  match credentials with
  | none => (notConnectedResult "Not connected to LinkedIn. Call connect() first.", [])
  | some _ =>
      let url := LINKEDIN_REST_API_BASE ++ "/events"
      match http with
      | .thrown msg =>
          ({ success := false, publicationId := "", externalId := none, externalUrl := none
             error := some { code := "NETWORK_ERROR", message := msg, retryable := true } },
            [url])
      | .resp status body =>
          if httpOk status then
            ({ success := true, publicationId := "li-" ++ liEventId body
               externalId := some (liEventId body)
               externalUrl := some (LinkedInAdapter.getEventUrl (liEventId body))
               error := none }, [url])
          else
            ({ success := false, publicationId := "", externalId := none, externalUrl := none
               error := some
                 { code := liErrorCodeTag body.statusField
                   message := jsOrStr body.message "Failed to create LinkedIn event"
                   retryable := LinkedInAdapter.isRetryableError status } }, [url])

/-- LinkedIn `updateEvent` (POST with method override). -/
def LinkedInAdapter.updateEvent (credentials : Option LinkedInCredentials)
    (externalId : String) (http : FetchOutcome LinkedInResponseBody) :
    PublicationResult × List String :=
  match credentials with
  | none => (notConnectedResult "Not connected to LinkedIn. Call connect() first.", [])
  | some _ =>
      let url := LINKEDIN_REST_API_BASE ++ "/events/" ++ externalId
      match http with
      | .thrown msg =>
          ({ success := false, publicationId := "li-" ++ externalId
             externalId := none, externalUrl := none
             error := some { code := "NETWORK_ERROR", message := msg, retryable := true } },
            [url])
      | .resp status body =>
          if httpOk status then
            ({ success := true, publicationId := "li-" ++ externalId
               externalId := some externalId
               externalUrl := some (LinkedInAdapter.getEventUrl externalId)
               error := none }, [url])
          else
            ({ success := false, publicationId := "li-" ++ externalId
               externalId := none, externalUrl := none
               error := some
                 { code := liErrorCodeTag body.statusField
                   message := jsOrStr body.message "Failed to update LinkedIn event"
                   retryable := LinkedInAdapter.isRetryableError status } }, [url])

/-- LinkedIn `deleteEvent`. -/
def LinkedInAdapter.deleteEvent (credentials : Option LinkedInCredentials)
    (externalId : String) (http : FetchOutcome LinkedInResponseBody) :
    Except String Unit × List String :=
  match credentials with
  | none => (.error "Not connected to LinkedIn. Call connect() first.", [])
  | some _ =>
      let url := LINKEDIN_REST_API_BASE ++ "/events/" ++ externalId
      match http with
      | .thrown msg => (.error msg, [url])
      | .resp status body =>
          if httpOk status then (.ok (), [url])
          else (.error (jsOrStr body.message "Failed to delete LinkedIn event"), [url])

/-! ## Zoom network operations -/

def ZOOM_API_BASE : String := "https://api.zoom.us/v2"

/-- Parsed Zoom response: error envelope (`code`, `message`), the numeric
meeting/webinar id and the `join_url` on success. -/
structure ZoomResponseBody where
  code : Option Nat
  message : Option String
  id : Nat
  joinUrl : String
  deriving Repr, DecidableEq

/-- Parsed Zoom `users/{id}` response used by `connect`. -/
structure ZoomUserBody where
  message : Option String
  email : Option String
  displayName : Option String
  firstName : Option String
  lastName : Option String
  deriving Repr, DecidableEq

/-- Zoom `isRetryableError`: by HTTP status — 429 and 5xx. -/
def ZoomAdapter.isRetryableError (statusCode : Nat) : Bool :=
  if statusCode == 429 then true
  else if 500 ≤ statusCode && statusCode < 600 then true
  else false

/-- Error-code tag `ZOOM_${errorData.code || 'UNKNOWN'}`. -/
def zoomErrorCodeTag (code : Option Nat) : String :=
  match code with
  | some c => if c = 0 then "ZOOM_UNKNOWN" else "ZOOM_" ++ toString c
  | none => "ZOOM_UNKNOWN"

/-- Zoom `getEventUrl`: a deterministic placeholder URL whose path segment is
selected by the mode. -/
def ZoomAdapter.getEventUrl (s : ZoomAdapterState) (externalId : String) : String :=
  "https://zoom.us/" ++ (match s.zoomType with | .webinar => "w" | .meeting => "j") ++
    "/" ++ externalId

/-- API endpoint of Zoom `createEvent`: sub-path selected by the mode. -/
def zoomCreateEndpoint (s : ZoomAdapterState) (userId : String) : String :=
  match s.zoomType with
  | .webinar => ZOOM_API_BASE ++ "/users/" ++ userId ++ "/webinars"
  | .meeting => ZOOM_API_BASE ++ "/users/" ++ userId ++ "/meetings"

/-- API endpoint of Zoom `updateEvent`/`deleteEvent`. -/
def zoomEventEndpoint (s : ZoomAdapterState) (externalId : String) : String :=
  match s.zoomType with
  | .webinar => ZOOM_API_BASE ++ "/webinars/" ++ externalId
  | .meeting => ZOOM_API_BASE ++ "/meetings/" ++ externalId

/-- `disconnect` clears the credential slot and nothing else. -/
def ZoomAdapter.disconnect (s : ZoomAdapterState) : ZoomAdapterState :=
  { s with credentials := none }

/-- JS template interpolation of a possibly-undefined string. -/
def jsShow (o : Option String) : String :=
  match o with
  | some s => s
  | none => "undefined"

/-- Zoom `connect`: validates the credential record locally, then fetches the
user, storing credentials only on success.  Returns the connection result,
the successor state and the fetched URLs. -/
def ZoomAdapter.connect (s : ZoomAdapterState) (creds : List (String × String))
    (http : FetchOutcome ZoomUserBody) :
    ConnectionResult × ZoomAdapterState × List String :=
  match creds.lookup "accessToken", creds.lookup "userId" with
  | some tok, some uid =>
      if tok = "" ∨ uid = "" then
        ({ success := false, platformId := s.platformId, accountName := none
           accountId := none
           error := some "Missing required credentials: accessToken and userId" }, s, [])
      else
        let url := ZOOM_API_BASE ++ "/users/" ++ uid
        match http with
        | .thrown msg =>
            ({ success := false, platformId := s.platformId, accountName := none
               accountId := none, error := some msg }, s, [url])
        | .resp status body =>
            if httpOk status then
              let displayName :=
                jsOrStr body.displayName (jsShow body.firstName ++ " " ++ jsShow body.lastName)
              let newCredentials : ZoomCredentials :=
                { accessToken := tok, userId := uid, email := body.email
                  displayName := some displayName }
              ({ success := true, platformId := s.platformId
                 accountName := some displayName, accountId := some uid, error := none },
                { s with credentials := some newCredentials }, [url])
            else
              ({ success := false, platformId := s.platformId, accountName := none
                 accountId := none
                 error := some (jsOrStr body.message "Failed to validate Zoom credentials") },
                s, [url])
  | _, _ =>
      ({ success := false, platformId := s.platformId, accountName := none, accountId := none
         error := some "Missing required credentials: accessToken and userId" }, s, [])

/-- Zoom `createEvent`. -/
def ZoomAdapter.createEvent (s : ZoomAdapterState)
    (http : FetchOutcome ZoomResponseBody) : PublicationResult × List String :=
  match s.credentials with
  | none => (notConnectedResult "Not connected to Zoom. Call connect() first.", [])
  | some c =>
      let url := zoomCreateEndpoint s c.userId
      match http with
      | .thrown msg =>
          ({ success := false, publicationId := "", externalId := none, externalUrl := none
             error := some { code := "NETWORK_ERROR", message := msg, retryable := true } },
            [url])
      | .resp status body =>
          if httpOk status then
            ({ success := true
               publicationId := "zoom-" ++ s.zoomType.asString ++ "-" ++ toString body.id
               externalId := some (toString body.id)
               externalUrl := some body.joinUrl
               error := none }, [url])
          else
            ({ success := false, publicationId := "", externalId := none, externalUrl := none
               error := some
                 { code := zoomErrorCodeTag body.code
                   message := jsOrStr body.message
                     ("Failed to create Zoom " ++ s.zoomType.asString)
                   retryable := ZoomAdapter.isRetryableError status } }, [url])

/-- Zoom `updateEvent`: a PATCH, then on success an info GET for the join
URL; an exception from either fetch is caught as a network error. -/
def ZoomAdapter.updateEvent (s : ZoomAdapterState) (externalId : String)
    (http1 http2 : FetchOutcome ZoomResponseBody) : PublicationResult × List String :=
  match s.credentials with
  | none => (notConnectedResult "Not connected to Zoom. Call connect() first.", [])
  | some _ =>
      let url := zoomEventEndpoint s externalId
      match http1 with
      | .thrown msg =>
          ({ success := false
             publicationId := "zoom-" ++ s.zoomType.asString ++ "-" ++ externalId
             externalId := none, externalUrl := none
             error := some { code := "NETWORK_ERROR", message := msg, retryable := true } },
            [url])
      | .resp status body =>
          if httpOk status then
            match http2 with
            | .thrown msg =>
                ({ success := false
                   publicationId := "zoom-" ++ s.zoomType.asString ++ "-" ++ externalId
                   externalId := none, externalUrl := none
                   error := some
                     { code := "NETWORK_ERROR", message := msg, retryable := true } },
                  [url, url])
            | .resp status2 body2 =>
                let joinUrl :=
                  if httpOk status2 then body2.joinUrl
                  else ZoomAdapter.getEventUrl s externalId
                ({ success := true
                   publicationId := "zoom-" ++ s.zoomType.asString ++ "-" ++ externalId
                   externalId := some externalId
                   externalUrl := some joinUrl
                   error := none }, [url, url])
          else
            ({ success := false
               publicationId := "zoom-" ++ s.zoomType.asString ++ "-" ++ externalId
               externalId := none, externalUrl := none
               error := some
                 { code := zoomErrorCodeTag body.code
                   message := jsOrStr body.message
                     ("Failed to update Zoom " ++ s.zoomType.asString)
                   retryable := ZoomAdapter.isRetryableError status } }, [url])

/-- Zoom `deleteEvent`: throws except on ok or 204 responses. -/
def ZoomAdapter.deleteEvent (s : ZoomAdapterState) (externalId : String)
    (http : FetchOutcome ZoomResponseBody) : Except String Unit × List String :=
  match s.credentials with
  | none => (.error "Not connected to Zoom. Call connect() first.", [])
  | some _ =>
      let url := zoomEventEndpoint s externalId
      match http with
      | .thrown msg => (.error msg, [url])
      | .resp status body =>
          if !httpOk status && status ≠ 204 then
            (.error (jsOrStr body.message ("Failed to delete Zoom " ++ s.zoomType.asString)),
              [url])
          else (.ok (), [url])

def demoFbCredentials : FacebookCredentials :=
  { accessToken := "tok", pageId := "page1", pageName := none }

/-- Claim C3, counterexample: a Facebook `createEvent` failing with HTTP 429
whose body carries Graph error code 100 is classified NOT retryable — the
Facebook adapter ignores the HTTP status entirely, so "HTTP status 429
implies retryable = true" is false on this code. -/
theorem facebook_429_not_retryable :
    ((FacebookAdapter.createEvent (some demoFbCredentials)
        (.resp 429 { errorCode := some 100, errorMessage := some "limit", id := "" })).1.error.map
      (fun err => err.retryable)) = some false := by
  rfl

/-- Membership form of the Facebook retryable set. -/
def fbRetryableCodes : List (Option Nat) :=
  [some 4, some 17, some 341, some 1, some 2]

/-- Claim C3 (amended): on a failed response, LinkedIn and Zoom classify
retryability solely by HTTP status (exactly 429 and 500-599), while Facebook
classifies solely by the in-body Graph error code (exactly 4, 17, 341, 1, 2),
regardless of HTTP status; an HTTP-layer exception yields `NETWORK_ERROR`
with retryable = true, and a not-connected failure yields `NOT_CONNECTED`
with retryable = false — for both `createEvent` and `updateEvent` of all
three adapters. -/
theorem adapter_retryability (fc : FacebookCredentials) (lc : LinkedInCredentials)
    (zs : ZoomAdapterState) (zc : ZoomCredentials) (status : Nat)
    (fbody : FacebookResponseBody) (lbody : LinkedInResponseBody)
    (zbody : ZoomResponseBody) (zh2 : FetchOutcome ZoomResponseBody)
    (fhttp : FetchOutcome FacebookResponseBody) (lhttp : FetchOutcome LinkedInResponseBody)
    (zhttp : FetchOutcome ZoomResponseBody) (externalId msg : String)
    (hfail : httpOk status = false) :
    (((FacebookAdapter.createEvent (some fc) (.resp status fbody)).1.error.map
          (fun err => err.retryable)) =
        some (FacebookAdapter.isRetryableError fbody.errorCode) ∧
      ((FacebookAdapter.updateEvent (some fc) externalId (.resp status fbody)).1.error.map
          (fun err => err.retryable)) =
        some (FacebookAdapter.isRetryableError fbody.errorCode) ∧
      (FacebookAdapter.isRetryableError fbody.errorCode = true ↔
        fbody.errorCode ∈ fbRetryableCodes)) ∧
    (((LinkedInAdapter.createEvent (some lc) (.resp status lbody)).1.error.map
          (fun err => err.retryable)) =
        some (LinkedInAdapter.isRetryableError status) ∧
      ((LinkedInAdapter.updateEvent (some lc) externalId (.resp status lbody)).1.error.map
          (fun err => err.retryable)) =
        some (LinkedInAdapter.isRetryableError status) ∧
      (LinkedInAdapter.isRetryableError status = true ↔
        (status = 429 ∨ (500 ≤ status ∧ status < 600)))) ∧
    (((ZoomAdapter.createEvent { zs with credentials := some zc }
            (.resp status zbody)).1.error.map (fun err => err.retryable)) =
        some (ZoomAdapter.isRetryableError status) ∧
      ((ZoomAdapter.updateEvent { zs with credentials := some zc } externalId
            (.resp status zbody) zh2).1.error.map (fun err => err.retryable)) =
        some (ZoomAdapter.isRetryableError status) ∧
      (ZoomAdapter.isRetryableError status = true ↔
        (status = 429 ∨ (500 ≤ status ∧ status < 600)))) ∧
    (((FacebookAdapter.createEvent (some fc) (.thrown msg)).1.error.map
          (fun err => (err.code, err.retryable))) = some ("NETWORK_ERROR", true) ∧
      ((LinkedInAdapter.createEvent (some lc) (.thrown msg)).1.error.map
          (fun err => (err.code, err.retryable))) = some ("NETWORK_ERROR", true) ∧
      ((ZoomAdapter.createEvent { zs with credentials := some zc } (.thrown msg)).1.error.map
          (fun err => (err.code, err.retryable))) = some ("NETWORK_ERROR", true) ∧
      ((FacebookAdapter.updateEvent (some fc) externalId (.thrown msg)).1.error.map
          (fun err => (err.code, err.retryable))) = some ("NETWORK_ERROR", true) ∧
      ((LinkedInAdapter.updateEvent (some lc) externalId (.thrown msg)).1.error.map
          (fun err => (err.code, err.retryable))) = some ("NETWORK_ERROR", true) ∧
      ((ZoomAdapter.updateEvent { zs with credentials := some zc } externalId
            (.thrown msg) zh2).1.error.map
          (fun err => (err.code, err.retryable))) = some ("NETWORK_ERROR", true)) ∧
    (((FacebookAdapter.createEvent none fhttp).1.error.map
          (fun err => (err.code, err.retryable))) = some ("NOT_CONNECTED", false) ∧
      ((LinkedInAdapter.createEvent none lhttp).1.error.map
          (fun err => (err.code, err.retryable))) = some ("NOT_CONNECTED", false) ∧
      ((ZoomAdapter.createEvent { zs with credentials := none } zhttp).1.error.map
          (fun err => (err.code, err.retryable))) = some ("NOT_CONNECTED", false)) := by
  have hnot : ¬ httpOk status = true := by simp [hfail]
  refine ⟨⟨?_, ?_, ?_⟩, ⟨?_, ?_, ?_⟩, ⟨?_, ?_, ?_⟩, ⟨?_, ?_, ?_, ?_, ?_, ?_⟩, ?_, ?_, ?_⟩
  · simp [FacebookAdapter.createEvent, hfail]
  · simp [FacebookAdapter.updateEvent, hfail]
  · simp only [FacebookAdapter.isRetryableError, fbRetryableCodes]
    cases fbody.errorCode with
    | none => simp
    | some c =>
        by_cases h4 : c = 4
        · simp [h4]
        · by_cases h17 : c = 17
          · simp [h17]
          · by_cases h341 : c = 341
            · simp [h341]
            · by_cases h1 : c = 1
              · simp [h1]
              · by_cases h2 : c = 2
                · simp [h2]
                · simp [h4, h17, h341, h1, h2]
  · simp [LinkedInAdapter.createEvent, hfail]
  · simp [LinkedInAdapter.updateEvent, hfail]
  · simp only [LinkedInAdapter.isRetryableError]
    by_cases h429 : status = 429
    · simp [h429]
    · by_cases h5 : 500 ≤ status ∧ status < 600
      · simp [h429, h5.1, h5.2]
      · rw [if_neg (by simp [h429]), if_neg (by simp; omega)]
        simp [h429]
        omega
  · simp [ZoomAdapter.createEvent, hfail]
  · simp [ZoomAdapter.updateEvent, hfail]
  · simp only [ZoomAdapter.isRetryableError]
    by_cases h429 : status = 429
    · simp [h429]
    · by_cases h5 : 500 ≤ status ∧ status < 600
      · simp [h429, h5.1, h5.2]
      · rw [if_neg (by simp [h429]), if_neg (by simp; omega)]
        simp [h429]
        omega
  · rfl
  · rfl
  · simp [ZoomAdapter.createEvent]
  · rfl
  · rfl
  · simp [ZoomAdapter.updateEvent]
  · rfl
  · rfl
  · rfl

/-- Claim C3, witness: the amended theorem applied at HTTP 400 with concrete
bodies. -/
theorem adapter_retryability_witness :
    httpOk 400 = false ∧
      ((LinkedInAdapter.createEvent
          (some { accessToken := "t", organizationId := "o", organizationName := none })
          (.resp 400
            { message := none, statusField := none, restliId := none, id := "x" })).1.error.map
          (fun err => err.retryable)) =
        some (LinkedInAdapter.isRetryableError 400) :=
  ⟨by decide,
    (adapter_retryability demoFbCredentials
      { accessToken := "t", organizationId := "o", organizationName := none }
      (mkZoomAdapter .zoomMeeting)
      { accessToken := "t", userId := "u", email := none, displayName := none } 400
      { errorCode := none, errorMessage := none, id := "" }
      { message := none, statusField := none, restliId := none, id := "x" }
      { code := none, message := none, id := 1, joinUrl := "" }
      (.thrown "x") (.thrown "x") (.thrown "x") (.thrown "x") "ev" "m"
      (by decide)).2.1.1⟩

/-- Outcome shape required of create/update in the disconnected state: a
failure result carrying `NOT_CONNECTED` (terminal) and an empty fetch
trace — no network call was made. -/
def NotConnectedOutcome (r : PublicationResult × List String) : Prop :=
  r.1.success = false ∧
    r.1.error.map (fun err => (err.code, err.retryable)) = some ("NOT_CONNECTED", false) ∧
    r.2 = []

/-- Claim C5: on every connected adapter (Facebook, LinkedIn, Zoom) in the
disconnected state — freshly constructed or after `disconnect` —
`createEvent` and `updateEvent` return a `NOT_CONNECTED` failure with
`retryable = false` and make no network call, and `deleteEvent` throws a
"not connected" error and makes no network call. -/
theorem adapter_not_connected_guard (fcr : Option FacebookCredentials)
    (lcr : Option LinkedInCredentials) (zs : ZoomAdapterState) (zt : ZoomPlatformType)
    (fhttp : FetchOutcome FacebookResponseBody) (lhttp : FetchOutcome LinkedInResponseBody)
    (zhttp zh2 : FetchOutcome ZoomResponseBody) (externalId : String) :
    (FacebookAdapter.initialCredentials = none ∧ FacebookAdapter.disconnect fcr = none ∧
      LinkedInAdapter.initialCredentials = none ∧ LinkedInAdapter.disconnect lcr = none ∧
      (mkZoomAdapter zt).credentials = none ∧ (ZoomAdapter.disconnect zs).credentials = none) ∧
    (NotConnectedOutcome (FacebookAdapter.createEvent none fhttp) ∧
      NotConnectedOutcome (FacebookAdapter.updateEvent none externalId fhttp) ∧
      FacebookAdapter.deleteEvent none externalId fhttp =
        (.error "Not connected to Facebook. Call connect() first.", [])) ∧
    (NotConnectedOutcome (LinkedInAdapter.createEvent none lhttp) ∧
      NotConnectedOutcome (LinkedInAdapter.updateEvent none externalId lhttp) ∧
      LinkedInAdapter.deleteEvent none externalId lhttp =
        (.error "Not connected to LinkedIn. Call connect() first.", [])) ∧
    (NotConnectedOutcome (ZoomAdapter.createEvent (ZoomAdapter.disconnect zs) zhttp) ∧
      NotConnectedOutcome
        (ZoomAdapter.updateEvent (ZoomAdapter.disconnect zs) externalId zhttp zh2) ∧
      ZoomAdapter.deleteEvent (ZoomAdapter.disconnect zs) externalId zhttp =
        (.error "Not connected to Zoom. Call connect() first.", [])) := by
  refine ⟨⟨rfl, rfl, rfl, rfl, ?_, rfl⟩, ⟨⟨rfl, rfl, rfl⟩, ⟨rfl, rfl, rfl⟩, rfl⟩,
    ⟨⟨rfl, rfl, rfl⟩, ⟨rfl, rfl, rfl⟩, rfl⟩, ⟨⟨rfl, rfl, rfl⟩, ⟨rfl, rfl, rfl⟩, rfl⟩⟩
  cases zt <;> rfl

/-- Claim C9: Zoom `transformEvent` always yields a virtual location,
whatever the canonical event's `isVirtual` flag; the meeting/webinar mode is
fixed by the constructor and preserved by every state transition
(`connect`, `disconnect`), and it alone selects the create/update/delete API
sub-paths. -/
theorem zoom_dual_mode (zs : ZoomAdapterState) (e : Event) (zt : ZoomPlatformType)
    (zc : ZoomCredentials) (creds : List (String × String))
    (chttp : FetchOutcome ZoomUserBody) (zhttp zh2 : FetchOutcome ZoomResponseBody)
    (externalId userId : String) :
    ((ZoomAdapter.transformEvent zs e).location.map (fun l => l.isVirtual)) = some true ∧
    ((mkZoomAdapter .zoomWebinar).zoomType = .webinar ∧
      (mkZoomAdapter .zoomMeeting).zoomType = .meeting ∧
      (mkZoomAdapter zt).platformId = zt.toPlatformId) ∧
    ((ZoomAdapter.disconnect zs).zoomType = zs.zoomType ∧
      (ZoomAdapter.disconnect zs).platformId = zs.platformId ∧
      (ZoomAdapter.connect zs creds chttp).2.1.zoomType = zs.zoomType ∧
      (ZoomAdapter.connect zs creds chttp).2.1.platformId = zs.platformId) ∧
    ((ZoomAdapter.createEvent { zs with credentials := some zc } zhttp).2 =
        [zoomCreateEndpoint { zs with credentials := some zc } zc.userId] ∧
      ((ZoomAdapter.updateEvent { zs with credentials := some zc } externalId zhttp zh2).2.head?
          = some (zoomEventEndpoint { zs with credentials := some zc } externalId)) ∧
      (ZoomAdapter.deleteEvent { zs with credentials := some zc } externalId zhttp).2 =
        [zoomEventEndpoint { zs with credentials := some zc } externalId]) ∧
    (zoomCreateEndpoint { zs with zoomType := .webinar } userId =
        ZOOM_API_BASE ++ "/users/" ++ userId ++ "/webinars" ∧
      zoomCreateEndpoint { zs with zoomType := .meeting } userId =
        ZOOM_API_BASE ++ "/users/" ++ userId ++ "/meetings" ∧
      zoomEventEndpoint { zs with zoomType := .webinar } externalId =
        ZOOM_API_BASE ++ "/webinars/" ++ externalId ∧
      zoomEventEndpoint { zs with zoomType := .meeting } externalId =
        ZOOM_API_BASE ++ "/meetings/" ++ externalId) := by
  refine ⟨rfl, ⟨rfl, rfl, by cases zt <;> rfl⟩, ⟨rfl, rfl, ?_, ?_⟩, ⟨?_, ?_, ?_⟩,
    rfl, rfl, rfl, rfl⟩
  · unfold ZoomAdapter.connect
    cases ha : creds.lookup "accessToken" with
    | none => rfl
    | some tok =>
        cases hu : creds.lookup "userId" with
        | none => rfl
        | some uid =>
            simp only
            by_cases hempty : tok = "" ∨ uid = ""
            · rw [if_pos hempty]
            · rw [if_neg hempty]
              cases chttp with
              | thrown msg => rfl
              | resp status body =>
                  by_cases hok : httpOk status = true
                  · simp [hok]
                  · simp only [Bool.not_eq_true] at hok
                    simp [hok]
  · unfold ZoomAdapter.connect
    cases ha : creds.lookup "accessToken" with
    | none => rfl
    | some tok =>
        cases hu : creds.lookup "userId" with
        | none => rfl
        | some uid =>
            simp only
            by_cases hempty : tok = "" ∨ uid = ""
            · rw [if_pos hempty]
            · rw [if_neg hempty]
              cases chttp with
              | thrown msg => rfl
              | resp status body =>
                  by_cases hok : httpOk status = true
                  · simp [hok]
                  · simp only [Bool.not_eq_true] at hok
                    simp [hok]
  · cases zhttp with
    | thrown msg => rfl
    | resp status body =>
        by_cases hok : httpOk status = true
        · simp [ZoomAdapter.createEvent, hok]
        · simp only [Bool.not_eq_true] at hok
          simp [ZoomAdapter.createEvent, hok]
  · cases zhttp with
    | thrown msg => rfl
    | resp status body =>
        by_cases hok : httpOk status = true
        · cases zh2 with
          | thrown msg2 => simp [ZoomAdapter.updateEvent, hok]
          | resp s2 b2 => simp [ZoomAdapter.updateEvent, hok]
        · simp only [Bool.not_eq_true] at hok
          simp [ZoomAdapter.updateEvent, hok]
  · cases zhttp with
    | thrown msg => rfl
    | resp status body =>
        simp only [ZoomAdapter.deleteEvent]
        split <;> rfl

theorem parseOAuthState_not_found (db : List OAuthStateRecord) (now : Int) (t o : String)
    (h : findStateByToken db t = none) :
    (parseOAuthState db now (some (t, o))).1 = none := by
  unfold parseOAuthState
  by_cases h0 : t = "" ∨ o = ""
  · simp [h0]
  · simp [h0, h]

/-- Claim C4: OAuth state validation is one-time-use.  Once the record for a
token is found, it is deleted whatever the outcome (so before the expiry and
organization checks can fail), and a second validation of the same token
returns null; a missing, expired, or organization-mismatched state also
returns null.  The model is total — `parseOAuthState` returns an `Option`
and never throws, mirroring the surrounding `try`/`catch`. -/
theorem oauth_state_one_time_use (db : List OAuthStateRecord) (now now2 : Int)
    (token organizationId orgId2 : String) (rec : OAuthStateRecord)
    (htok : token ≠ "") (horg : organizationId ≠ "") :
    (findStateByToken db token = some rec →
      findStateByToken (parseOAuthState db now (some (token, organizationId))).2 token =
          none ∧
        (parseOAuthState (parseOAuthState db now (some (token, organizationId))).2 now2
            (some (token, orgId2))).1 = none) ∧
      (findStateByToken db token = none →
        (parseOAuthState db now (some (token, organizationId))).1 = none) ∧
      (findStateByToken db token = some rec → rec.expiresAt < now →
        (parseOAuthState db now (some (token, organizationId))).1 = none) ∧
      (findStateByToken db token = some rec → rec.organizationId ≠ organizationId →
        (parseOAuthState db now (some (token, organizationId))).1 = none) ∧
      (parseOAuthState db now none).1 = none := by
  refine ⟨?_, ?_, ?_, ?_, rfl⟩
  · intro hfound
    have hdel := parseOAuthState_deletes db now token organizationId rec hfound htok horg
    have hnone : findStateByToken (parseOAuthState db now
        (some (token, organizationId))).2 token = none := by
      rw [hdel]
      exact findStateByToken_delete db token
    exact ⟨hnone, parseOAuthState_not_found _ now2 token orgId2 hnone⟩
  · intro hmissing
    unfold parseOAuthState
    simp only [htok, horg, or_self, if_false, hmissing]
  · intro hfound hexp
    unfold parseOAuthState
    simp only [htok, horg, or_self, if_false, hfound, hexp, if_true]
  · intro hfound hmismatch
    unfold parseOAuthState
    simp only [htok, horg, or_self, if_false, hfound]
    by_cases hexp : rec.expiresAt < now
    · simp [hexp]
    · simp [hexp, hmismatch]

/-- A concrete state record used by the C4 witness. -/
def demoStateRecord : OAuthStateRecord :=
  { token := "tok-1", organizationId := "org-A", platform := "facebook", expiresAt := 1000 }

/-- Claim C4, witness: the theorem applied to a one-record table; the first
validation consumes the record and the second returns null. -/
theorem oauth_state_one_time_use_witness :
    findStateByToken
        (parseOAuthState [demoStateRecord] 500 (some ("tok-1", "org-A"))).2 "tok-1" = none ∧
      (parseOAuthState (parseOAuthState [demoStateRecord] 500 (some ("tok-1", "org-A"))).2
          600 (some ("tok-1", "org-A"))).1 = none :=
  (oauth_state_one_time_use [demoStateRecord] 500 600 "tok-1" "org-A" "org-A"
      demoStateRecord (by decide) (by decide)).1 (by rfl)

/-- Claim C6: with a valid 32-byte key, decrypting an encrypted value
recovers the plaintext exactly, for every plaintext byte sequence including
the empty one and ones containing the `:` delimiter byte. -/
theorem cipher_roundtrip (key iv m : List Nat) (hkey : key.length = 32)
    (hiv : iv.length = 12) (hivb : ∀ x ∈ iv, x < 256) (hm : ∀ x ∈ m, x < 256) :
    decrypt key (encrypt key iv m) = .ok m :=
  decrypt_encrypt key iv m hiv hivb hm

def demoKey : List Nat := (List.range 32).map (fun i => (i * 7 + 3) % 256)

def demoIv : List Nat := (List.range 12).map (fun i => (i * 13 + 1) % 256)

/-- A plaintext containing the `:` delimiter (byte 58). -/
def demoPlain : List Nat := ofAscii "token:secret:value"

/-- Claim C6, witness: the round trip evaluated on a concrete key, nonce and
plaintext with embedded `:`, and on the empty plaintext. -/
theorem cipher_roundtrip_witness :
    demoKey.length = 32 ∧ demoIv.length = 12 ∧ 58 ∈ demoPlain ∧
      decrypt demoKey (encrypt demoKey demoIv demoPlain) = .ok demoPlain ∧
      decrypt demoKey (encrypt demoKey demoIv []) = .ok [] :=
  ⟨by decide, by decide, by decide,
    cipher_roundtrip demoKey demoIv demoPlain (by decide) (by decide) (by decide) (by decide),
    cipher_roundtrip demoKey demoIv [] (by decide) (by decide) (by decide) (by decide)⟩

/-- Claim C7: `decrypt` fails (never yields a plaintext) whenever the
`:`-split segment count is not 3, the decoded nonce is not 12 bytes, the
decoded tag is not 16 bytes, or AEAD verification fails; in particular
replacing any single byte of the ciphertext or of the tag of a value
produced by `encrypt` makes `decrypt` fail. -/
theorem decrypt_failure_modes (key s p0 p1 p2 iv m : List Nat) (i b : Nat) :
    ((splitOnColon s).length ≠ 3 → decrypt key s = .error "Invalid encrypted format") ∧
      (splitOnColon s = [p0, p1, p2] → (b64Decode p0).length ≠ 12 →
        decrypt key s = .error "Invalid IV length") ∧
      (splitOnColon s = [p0, p1, p2] → (b64Decode p0).length = 12 →
        (b64Decode p2).length ≠ 16 → decrypt key s = .error "Invalid auth tag length") ∧
      (splitOnColon s = [p0, p1, p2] → (b64Decode p0).length = 12 →
        (b64Decode p2).length = 16 →
        authTag key (b64Decode p0) (b64Decode p1) ≠ b64Decode p2 →
        decrypt key s = .error "Unsupported state or unable to authenticate data") ∧
      (iv.length = 12 → (∀ x ∈ iv, x < 256) → (∀ x ∈ m, x < 256) →
        i < (aeadEncryptBytes key iv m).length → b < 256 →
        b ≠ (aeadEncryptBytes key iv m).getD i 0 →
        decrypt key (b64Encode iv ++ 58 ::
            (b64Encode ((aeadEncryptBytes key iv m).set i b) ++ 58 ::
              b64Encode (authTag key iv (aeadEncryptBytes key iv m)))) =
          .error "Unsupported state or unable to authenticate data") ∧
      (iv.length = 12 → (∀ x ∈ iv, x < 256) → (∀ x ∈ m, x < 256) → i < 16 → b < 256 →
        b ≠ (authTag key iv (aeadEncryptBytes key iv m)).getD i 0 →
        decrypt key (b64Encode iv ++ 58 ::
            (b64Encode (aeadEncryptBytes key iv m) ++ 58 ::
              b64Encode ((authTag key iv (aeadEncryptBytes key iv m)).set i b))) =
          .error "Unsupported state or unable to authenticate data") := by
  refine ⟨?_, ?_, ?_, ?_, ?_, ?_⟩
  · intro hlen
    unfold decrypt
    cases hs : splitOnColon s with
    | nil => rfl
    | cons a t =>
        cases t with
        | nil => rfl
        | cons c t2 =>
            cases t2 with
            | nil => rfl
            | cons d t3 =>
                cases t3 with
                | nil => exact absurd (by rw [hs]; rfl) hlen
                | cons e t4 => rfl
  · intro hs hiv
    unfold decrypt
    rw [hs]
    simp [IV_LENGTH, hiv]
  · intro hs hiv htag
    unfold decrypt
    rw [hs]
    simp [IV_LENGTH, TAG_LENGTH, hiv, htag]
  · intro hs hiv htag hver
    unfold decrypt
    rw [hs]
    simp [IV_LENGTH, TAG_LENGTH, hiv, htag, hver]
  · intro hiv hivb hm hi hb hne
    exact decrypt_ct_tampered key iv m i b hiv hivb hm hi hb hne
  · intro hiv hivb hm hi hb hne
    exact decrypt_tag_tampered key iv m i b hiv hivb hm hi hb hne

/-- Claim C7, witness: the failure modes evaluated concretely — a two-segment
input, and a first-byte flip of the ciphertext and of the tag of a concrete
encrypted value. -/
theorem decrypt_failure_modes_witness :
    (splitOnColon (ofAscii "ab:cd")).length ≠ 3 ∧
      decrypt demoKey (ofAscii "ab:cd") = .error "Invalid encrypted format" ∧
      decrypt demoKey (b64Encode demoIv ++ 58 ::
          (b64Encode ((aeadEncryptBytes demoKey demoIv demoPlain).set 0
              (((aeadEncryptBytes demoKey demoIv demoPlain).getD 0 0 + 1) % 256)) ++ 58 ::
            b64Encode (authTag demoKey demoIv (aeadEncryptBytes demoKey demoIv demoPlain)))) =
        .error "Unsupported state or unable to authenticate data" ∧
      decrypt demoKey (b64Encode demoIv ++ 58 ::
          (b64Encode (aeadEncryptBytes demoKey demoIv demoPlain) ++ 58 ::
            b64Encode ((authTag demoKey demoIv
                (aeadEncryptBytes demoKey demoIv demoPlain)).set 0
              (((authTag demoKey demoIv
                  (aeadEncryptBytes demoKey demoIv demoPlain)).getD 0 0 + 1) % 256)))) =
        .error "Unsupported state or unable to authenticate data" :=
  ⟨by decide,
    (decrypt_failure_modes demoKey (ofAscii "ab:cd") [] [] [] [] [] 0 0).1 (by decide),
    (decrypt_failure_modes demoKey [] [] [] [] demoIv demoPlain 0
        (((aeadEncryptBytes demoKey demoIv demoPlain).getD 0 0 + 1) % 256)).2.2.2.2.1
      (by decide) (by decide) (by decide) (by decide) (by decide) (by decide),
    (decrypt_failure_modes demoKey [] [] [] [] demoIv demoPlain 0
        (((authTag demoKey demoIv
            (aeadEncryptBytes demoKey demoIv demoPlain)).getD 0 0 + 1) % 256)).2.2.2.2.2
      (by decide) (by decide) (by decide) (by decide) (by decide) (by decide)⟩

theorem isEncrypted_encrypt (key iv m : List Nat) (hiv : iv.length = 12)
    (hivb : ∀ x ∈ iv, x < 256) :
    isEncrypted (encrypt key iv m) = true := by
  unfold isEncrypted encrypt
  rw [splitOnColon_append _ _ (colon_not_mem_b64Encode iv),
    splitOnColon_append _ _ (colon_not_mem_b64Encode _),
    splitOnColon_no_colon _ (colon_not_mem_b64Encode _)]
  simp [b64Decode_b64Encode iv hivb, b64Decode_b64Encode _ (authTag_lt key iv _),
    hiv, IV_LENGTH, TAG_LENGTH, authTag_length]

/-- Claim C10: the output of `encrypt` always passes the `isEncrypted`
structural probe, so `getCredentials` after `saveCredentials` takes the
decrypt branch and returns the original plaintext tokens; a stored value
that fails the probe is returned unchanged without error. -/
theorem encrypt_probe_and_read_path (key iv m iv1 iv2 : List Nat) (now : Int)
    (db : List PlatformCredentialRow) (input : SaveCredentialsInput)
    (cred : PlatformCredentialRow) (org platform : String) (rt : List Nat)
    (hiv : iv.length = 12) (hivb : ∀ x ∈ iv, x < 256)
    (hkey : key.length = 32) (hiv1 : iv1.length = 12) (hiv2 : iv2.length = 12)
    (hiv1b : ∀ x ∈ iv1, x < 256) (hiv2b : ∀ x ∈ iv2, x < 256)
    (hat : ∀ x ∈ input.accessToken, x < 256)
    (hrt : ∀ r, input.refreshToken = some r → ∀ x ∈ r, x < 256) :
    isEncrypted (encrypt key iv m) = true ∧
      getCredentials key (saveCredentials key iv1 iv2 now db input)
          input.organizationId input.platform =
        .ok (some { organizationId := input.organizationId
                    platform := input.platform
                    accessToken := input.accessToken
                    refreshToken := input.refreshToken
                    expiresAt := input.expiresAt
                    platformUserId := input.platformUserId
                    platformPageId := input.platformPageId
                    isValid := true
                    lastValidated := now }) ∧
      (findCredential db org platform = some cred →
        isEncrypted cred.accessToken = false → cred.refreshToken = none →
        getCredentials key db org platform = .ok (some cred)) ∧
      (findCredential db org platform = some cred →
        isEncrypted cred.accessToken = false → cred.refreshToken = some rt →
        isEncrypted rt = false →
        getCredentials key db org platform = .ok (some cred)) := by
  refine ⟨isEncrypted_encrypt key iv m hiv hivb,
    getCredentials_after_save key iv1 iv2 now db input hkey hiv1 hiv2 hiv1b hiv2b hat hrt,
    ?_, ?_⟩
  · intro hfind henc hnone
    unfold getCredentials
    rw [hfind]
    cases cred with
    | mk o p a r ex pu pp iv lv =>
        simp only at henc hnone
        subst hnone
        simp only [henc, Bool.false_eq_true, if_false]
        rfl
  · intro hfind henc hsome henc2
    unfold getCredentials
    rw [hfind]
    cases cred with
    | mk o p a r ex pu pp iv lv =>
        simp only at henc hsome
        subst hsome
        simp only [henc, henc2, Bool.false_eq_true, if_false]
        rfl

/-- A concrete save input for the witnesses. -/
def demoSaveInput : SaveCredentialsInput :=
  { organizationId := "org-A", platform := "FACEBOOK"
    accessToken := ofAscii "access-1", refreshToken := some (ofAscii "refresh-1")
    expiresAt := some 99, platformUserId := none, platformPageId := some "page1" }

/-- A second save to the same pair with different values. -/
def demoSaveInput2 : SaveCredentialsInput :=
  { organizationId := "org-A", platform := "FACEBOOK"
    accessToken := ofAscii "access-2", refreshToken := none
    expiresAt := none, platformUserId := some "u2", platformPageId := some "page1" }

/-- A legacy plaintext row that fails the probe. -/
def demoLegacyRow : PlatformCredentialRow :=
  { organizationId := "org-B", platform := "ZOOM"
    accessToken := ofAscii "legacy-plain-token", refreshToken := none
    expiresAt := none, platformUserId := none, platformPageId := none
    isValid := true, lastValidated := 0 }

/-- Claim C10, witness: probe, save-then-read and the legacy path on
concrete values. -/
theorem encrypt_probe_and_read_path_witness :
    isEncrypted (encrypt demoKey demoIv demoPlain) = true ∧
      getCredentials demoKey (saveCredentials demoKey demoIv demoIv 7 [] demoSaveInput)
          "org-A" "FACEBOOK" =
        .ok (some { organizationId := "org-A", platform := "FACEBOOK"
                    accessToken := ofAscii "access-1"
                    refreshToken := some (ofAscii "refresh-1")
                    expiresAt := some 99, platformUserId := none
                    platformPageId := some "page1", isValid := true, lastValidated := 7 }) ∧
      getCredentials demoKey [demoLegacyRow] "org-B" "ZOOM" = .ok (some demoLegacyRow) := by
  have hrt : ∀ r, demoSaveInput.refreshToken = some r → ∀ x ∈ r, x < 256 := by
    intro r hr
    simp only [demoSaveInput, Option.some.injEq] at hr
    subst hr
    decide
  have h := encrypt_probe_and_read_path demoKey demoIv demoPlain demoIv demoIv 7 []
    demoSaveInput demoLegacyRow "org-B" "ZOOM" [] (by decide) (by decide) (by decide)
    (by decide) (by decide) (by decide) (by decide) (by decide) hrt
  have h2 := encrypt_probe_and_read_path demoKey demoIv demoPlain demoIv demoIv 7
    [demoLegacyRow] demoSaveInput demoLegacyRow "org-B" "ZOOM" [] (by decide) (by decide)
    (by decide) (by decide) (by decide) (by decide) (by decide) (by decide) hrt
  exact ⟨h.1, h.2.1, h2.2.2.1 (by decide) (by decide) (by decide)⟩

/-- Fold of `saveCredentials` over a sequence of inputs. -/
def saveAll (key iv1 iv2 : List Nat) (now : Int) (db : List PlatformCredentialRow)
    (inputs : List SaveCredentialsInput) : List PlatformCredentialRow :=
  inputs.foldl (saveCredentials key iv1 iv2 now) db

theorem saveAll_preserves (key iv1 iv2 : List Nat) (now : Int)
    (inputs : List SaveCredentialsInput) :
    ∀ db : List PlatformCredentialRow, AtMostOnePerPair db →
      AtMostOnePerPair (saveAll key iv1 iv2 now db inputs) := by
  induction inputs with
  | nil => intro db h; exact h
  | cons input rest ih =>
      intro db h
      exact ih _ (saveCredentials_preserves key iv1 iv2 now db input h)

/-- Claim C8: `saveCredentials` is an upsert keyed by
`(organizationId, platform)` — the at-most-one-row-per-pair invariant is
preserved by any sequence of saves, and after a save the lookup of the pair
yields exactly the row of the latest save: both tokens freshly encrypted,
`isValid = true`, `lastValidated` stamped with the current time. -/
theorem credential_upsert (key iv1 iv2 : List Nat) (now : Int)
    (db : List PlatformCredentialRow) (input : SaveCredentialsInput)
    (inputs : List SaveCredentialsInput) (h : AtMostOnePerPair db) :
    AtMostOnePerPair (saveCredentials key iv1 iv2 now db input) ∧
      AtMostOnePerPair (saveAll key iv1 iv2 now db inputs) ∧
      findCredential (saveCredentials key iv1 iv2 now db input)
          input.organizationId input.platform =
        some { organizationId := input.organizationId
               platform := input.platform
               accessToken := encrypt key iv1 input.accessToken
               refreshToken := input.refreshToken.map (encrypt key iv2)
               expiresAt := input.expiresAt
               platformUserId := input.platformUserId
               platformPageId := input.platformPageId
               isValid := true
               lastValidated := now } :=
  ⟨saveCredentials_preserves key iv1 iv2 now db input h,
    saveAll_preserves key iv1 iv2 now inputs db h,
    findCredential_saveCredentials key iv1 iv2 now db input⟩

/-- Claim C8, witness: two successive saves to the same pair starting from
the empty table leave exactly one row, holding the second save's values. -/
theorem credential_upsert_witness :
    AtMostOnePerPair
        (saveAll demoKey demoIv demoIv 7 [] [demoSaveInput, demoSaveInput2]) ∧
      (saveAll demoKey demoIv demoIv 7 [] [demoSaveInput, demoSaveInput2]).length = 1 ∧
      findCredential
          (saveCredentials demoKey demoIv demoIv 7
            (saveCredentials demoKey demoIv demoIv 7 [] demoSaveInput) demoSaveInput2)
          "org-A" "FACEBOOK" =
        some { organizationId := "org-A", platform := "FACEBOOK"
               accessToken := encrypt demoKey demoIv (ofAscii "access-2")
               refreshToken := none, expiresAt := none, platformUserId := some "u2"
               platformPageId := some "page1", isValid := true, lastValidated := 7 } :=
  ⟨(credential_upsert demoKey demoIv demoIv 7 [] demoSaveInput
      [demoSaveInput, demoSaveInput2] (by simp [AtMostOnePerPair])).2.1,
    by decide,
    (credential_upsert demoKey demoIv demoIv 7
        (saveCredentials demoKey demoIv demoIv 7 [] demoSaveInput) demoSaveInput2 []
        ((credential_upsert demoKey demoIv demoIv 7 [] demoSaveInput []
            (by simp [AtMostOnePerPair])).1)).2.2⟩

/-! ## Local calendar ICS generation (`local-calendar-adapter.ts`)

`Date.prototype.toISOString` of the host runtime formats the instant in UTC
as `YYYY-MM-DDTHH:MM:SS.mmmZ`; it is reproduced here with the standard civil
calendar conversion (instants from the Unix epoch onwards, which covers every
value the adapter handles). -/

/-- Civil date (year, month, day) from days since 1970-01-01. -/
def civilFromDays (z0 : Nat) : Nat × Nat × Nat :=
  let z := z0 + 719468
  let era := z / 146097
  let doe := z % 146097
  let yoe := (doe - doe / 1460 + doe / 36524 - doe / 146096) / 365
  let y := yoe + era * 400
  let doy := doe - (365 * yoe + yoe / 4 - yoe / 100)
  let mp := (5 * doy + 2) / 153
  let d := doy - (153 * mp + 2) / 5 + 1
  let m := if mp < 10 then mp + 3 else mp - 9
  (if m ≤ 2 then y + 1 else y, m, d)

/-- Zero-padded decimal rendering. -/
def padNum (width n : Nat) : List Char :=
  List.replicate (width - (toString n).length) '0' ++ (toString n).data

/-- `Date.prototype.toISOString` on epoch milliseconds. -/
def toISOString (ms : Nat) : List Char :=
  let totalSecs := ms / 1000
  let days := totalSecs / 86400
  let secOfDay := totalSecs % 86400
  match civilFromDays days with
  | (y, mo, d) =>
      padNum 4 y ++ '-' :: padNum 2 mo ++ '-' :: padNum 2 d ++
        'T' :: padNum 2 (secOfDay / 3600) ++ ':' :: padNum 2 (secOfDay % 3600 / 60) ++
          ':' :: padNum 2 (secOfDay % 60) ++ '.' :: padNum 3 (ms % 1000) ++ ['Z']

theorem toISOString_epoch : toISOString 0 = "1970-01-01T00:00:00.000Z".data := by decide

/-- First `replace` of `formatICSDate`: `/[-:]/g` removed. -/
def stripDashColon (s : List Char) : List Char :=
  s.filter (fun c => !(c == '-' || c == ':'))

/-- Second `replace` of `formatICSDate`: the first `.ddd` match removed. -/
def stripMillis : List Char → List Char
  | '.' :: a :: b :: c :: rest =>
      if a.isDigit && b.isDigit && c.isDigit then rest
      else '.' :: stripMillis (a :: b :: c :: rest)
  | c :: rest => c :: stripMillis rest
  | [] => []

/-- `formatICSDate`: the ISO string stripped of `-`, `:` and the millisecond
part, as event-layer code units.  NOTE: the result keeps `toISOString`'s
trailing `Z` and its UTC wall-clock — the function performs no conversion to
the event's named timezone. -/
def formatICSDate (ms : Int) : List Nat :=
  (stripMillis (stripDashColon (toISOString ms.toNat))).map Char.toNat

/-- One character-replacement pass of `escapeICS` on code units. -/
def replaceAllCU (s : List Nat) (target : Nat) (repl : List Nat) : List Nat :=
  (s.map (fun c => if c = target then repl else [c])).flatten

/-- `escapeICS`: backslash doubled first, then `;`, `,` and newline prefixed
with a backslash (newline becomes the two characters `\n`). -/
def escapeICS (text : List Nat) : List Nat :=
  replaceAllCU (replaceAllCU (replaceAllCU (replaceAllCU text 92 [92, 92]) 59 [92, 59])
    44 [92, 44]) 10 [92, 110]

/-- Metadata-bag lookup. -/
def metaLookup (m : List (String × MetaValue)) (k : String) : Option MetaValue :=
  (m.find? (fun p => p.1 == k)).map (fun p => p.2)

/-- The `lines` array built by `generateICS`, before the CRLF join.  The two
clock reads (`new Date()` for DTSTAMP, `Date.now()` for the UID fallback) are
the explicit `nowMs` argument. -/
def generateICSLines (nowMs : Int) (event : TransformedEvent) : List (List Nat) :=
  let uid :=
    match metaLookup event.metadata "uid" with
    | some (.str s) =>
        if s.isEmpty then ofAscii (toString nowMs ++ "@eventflow.app") else s
    | _ => ofAscii (toString nowMs ++ "@eventflow.app")
  let nowLine := formatICSDate nowMs
  let baseLines : List (List Nat) :=
    [ofAscii "BEGIN:VCALENDAR", ofAscii "VERSION:2.0",
      ofAscii "PRODID:-//EventFlow//EventFlow App//EN", ofAscii "CALSCALE:GREGORIAN",
      ofAscii "METHOD:PUBLISH", ofAscii "BEGIN:VEVENT",
      ofAscii "UID:" ++ uid,
      ofAscii "DTSTAMP:" ++ nowLine,
      ofAscii "DTSTART;TZID=" ++ event.timezone ++ ofAscii ":" ++
        formatICSDate event.startTime,
      ofAscii "DTEND;TZID=" ++ event.timezone ++ ofAscii ":" ++
        formatICSDate event.endTime,
      ofAscii "SUMMARY:" ++ escapeICS event.title,
      ofAscii "DESCRIPTION:" ++ escapeICS event.description]
  let locationLines : List (List Nat) :=
    match event.location with
    | some loc =>
        if loc.isVirtual && jsTruthy loc.virtualUrl then
          [ofAscii "LOCATION:" ++ escapeICS (loc.virtualUrl.getD []),
            ofAscii "URL:" ++ loc.virtualUrl.getD []]
        else if jsTruthy loc.address then
          [ofAscii "LOCATION:" ++ escapeICS (loc.address.getD [])]
        else if jsTruthy loc.name then
          [ofAscii "LOCATION:" ++ escapeICS (loc.name.getD [])]
        else []
    | none => []
  let organizerLines : List (List Nat) :=
    match metaLookup event.metadata "organizer" with
    | some (.organizerVal o) =>
        match o.email with
        | some em =>
            if em.isEmpty then []
            else [ofAscii "ORGANIZER;CN=" ++ escapeICS o.name ++ ofAscii ":mailto:" ++ em]
        | none => []
    | _ => []
  let categoryLines : List (List Nat) :=
    match metaLookup event.metadata "category" with
    | some (.str c) => if c.isEmpty then [] else [ofAscii "CATEGORIES:" ++ escapeICS c]
    | some (.optStr (some c)) =>
        if c.isEmpty then [] else [ofAscii "CATEGORIES:" ++ escapeICS c]
    | _ => []
  baseLines ++ locationLines ++ organizerLines ++ categoryLines ++
    [ofAscii "END:VEVENT", ofAscii "END:VCALENDAR"]

/-- `generateICS`: the lines joined with CRLF. -/
def generateICS (nowMs : Int) (event : TransformedEvent) : List Nat :=
  List.intercalate [13, 10] (generateICSLines nowMs event)

/-- Result shape of the local adapter's `createEvent`: the uniform
`PublicationResult` whose `externalId` string carries the generated ICS
content (typed here with the event-layer string model) and no external URL. -/
structure LocalPublicationResult where
  success : Bool
  publicationId : String
  externalId : List Nat
  externalUrl : Option String
  deriving Repr, DecidableEq

/-- Local-calendar `createEvent`: no network, the ICS text is the result. -/
def LocalCalendarAdapter.createEvent (nowMs : Int) (event : TransformedEvent) :
    LocalPublicationResult :=
  { success := true
    publicationId := "ical-" ++ toString nowMs
    externalId := generateICS nowMs event
    externalUrl := none }

/-- The transformed event of the C2 scenario: title `Team Sync; Q1`,
description `Line1\nLine2` with a real newline, start 2025-03-01T10:00:00 in
America/Los_Angeles — as a `Date`, the UTC instant 2025-03-01T18:00:00Z,
epoch 1740852000000 ms (Los Angeles is UTC-8 on that date). -/
def icsDemoEvent : TransformedEvent :=
  { platformId := .localCalendar
    title := ofAscii "Team Sync; Q1"
    description := ofAscii "Line1\nLine2"
    startTime := 1740852000000
    endTime := 1740855600000
    timezone := ofAscii "America/Los_Angeles"
    location := none
    imageUrl := none
    metadata := [("uid", .str (ofAscii "ev-1"))] }

/-- Claim C2: the generated text at the claimed input.  SUMMARY and
DESCRIPTION appear exactly as the claim states (escaping order included), but
the DTSTART line is `DTSTART;TZID=America/Los_Angeles:20250301T180000Z` —
the UTC instant with a trailing `Z` — and NOT the claimed local-time line
`DTSTART;TZID=America/Los_Angeles:20250301T100000`: `formatICSDate` never
converts to the named timezone and keeps the `Z`, contradicting its own
`YYYYMMDDTHHMMSS` doc comment and RFC 5545 TZID semantics. -/
theorem local_calendar_ics_lines :
    (generateICSLines 1740852000000 icsDemoEvent).contains
        (ofAscii "SUMMARY:Team Sync\\; Q1") = true ∧
      (generateICSLines 1740852000000 icsDemoEvent).contains
        (ofAscii "DESCRIPTION:Line1\\nLine2") = true ∧
      (generateICSLines 1740852000000 icsDemoEvent).contains
        (ofAscii "DTSTART;TZID=America/Los_Angeles:20250301T180000Z") = true ∧
      (generateICSLines 1740852000000 icsDemoEvent).contains
        (ofAscii "DTSTART;TZID=America/Los_Angeles:20250301T100000") = false ∧
      escapeICS (ofAscii "a\\;b") = ofAscii "a\\\\\\;b" ∧
      (LocalCalendarAdapter.createEvent 1740852000000 icsDemoEvent).externalId =
        generateICS 1740852000000 icsDemoEvent := by
  refine ⟨by decide, by decide, by decide, by decide, by decide, rfl⟩
